import Mathlib

/-!
Verification of the conversation/workflow engine of the ai-bootstraper
backend (Python).  The definitions below are a shallow embedding of the
relevant source files:

* `backend/models/schemas.py`       — data model (`SessionState` etc.)
* `backend/core/state_machine.py`   — guarded transition table
* `backend/core/session_manager.py` — durable session store
* `backend/execution/engine.py`     — command execution engine
* `backend/gemini/function_registry.py` — action registry and dispatch
* `backend/core/agent.py`           — orchestrator loop

External effects (subprocesses, the Gemini reasoning capability, the
filesystem, websockets) are modelled by explicit oracle data carried in
the events that drive the engine; websocket sends are modelled as
side-effect free.  Wall-clock timestamps are modelled as natural numbers
where the code reads them (session expiry) and are otherwise not tracked.
-/

namespace AIBoot

/-- `ConversationState` enum, `backend/models/schemas.py` lines 8-23,
in declaration order (the order matters: `_setup_transitions` iterates
the enum when registering the ERROR/ABORTED transitions). -/
inductive ConversationState where
  | INIT
  | ASK_PROJECT_TYPE
  | ASK_LANGUAGE_PREFERENCE
  | ASK_PROJECT_NAME_FOLDER
  | ASK_ADDITIONAL_DETAILS
  | CHECK_SYSTEM_CAPABILITIES
  | VALIDATE_INFO
  | SUMMARY_CONFIRMATION
  | PLANNING
  | EXECUTING
  | VERIFYING
  | COMPLETED
  | ERROR
  | ABORTED
deriving DecidableEq, Repr

/-- `ProjectType` enum, `backend/models/schemas.py` lines 26-34. -/
inductive ProjectType where
  | WEB_API
  | FRONTEND
  | CLI
  | MOBILE_APP
  | FULLSTACK
  | LIBRARY
  | MICROSERVICE
deriving DecidableEq, Repr

/-- `Permission` model, `backend/models/schemas.py` lines 37-43
(`timestamp`/`revoked` modelled as plain naturals / omitted). -/
structure Permission where
  type : String
  scope : String
  granted : Bool
deriving DecidableEq, Repr

/-- `ProjectRequirements`, `backend/models/schemas.py` lines 46-57. -/
structure ProjectRequirements where
  project_type : Option ProjectType := none
  language : Option String := none
  framework : Option String := none
  project_name : Option String := none
  folder_path : Option String := none
  database : Option String := none
  authentication : Bool := false
  testing : Bool := false
  docker : Bool := false
deriving DecidableEq, Repr

/-- `SystemCapability`, `backend/models/schemas.py` lines 127-139.
`available_runtimes`/`environment_variables` are association lists. -/
structure SystemCapability where
  os : String := ""
  shell : String := ""
  python_version : Option String := none
  node_version : Option String := none
  npm_version : Option String := none
  docker_installed : Bool := false
  git_installed : Bool := false
  available_package_managers : List String := []
  available_runtimes : List (String × String) := []
  detection_completed : Bool := false
deriving DecidableEq, Repr

/-- `ExecutionStep`, `backend/models/schemas.py` lines 142-151. -/
structure ExecutionStep where
  command : String
  description : String
  working_directory : Option String := none
  fallback_command : Option String := none
  timeout : Nat := 30
  requires_permission : Bool := false
deriving DecidableEq, Repr

/-- `ExecutionPlan`, `backend/models/schemas.py` lines 154-164. -/
structure ExecutionPlan where
  steps : List ExecutionStep := []
deriving DecidableEq, Repr

/-- `ExecutionResult`, `backend/models/schemas.py` lines 167-178
(`duration`/`timestamp` not modelled: no claim reads them). -/
structure ExecutionResult where
  step_index : Nat
  command : String
  success : Bool
  stdout : String := ""
  stderr : String := ""
  exit_code : Int := 0
  fallback_used : Bool := false
deriving DecidableEq, Repr

/-- A conversation-history entry (`SessionState.add_message` appends
dicts with `role`/`content`/`timestamp`; timestamp not modelled). -/
structure Message where
  role : String
  content : String
deriving DecidableEq, Repr

/-- The pending structured question stored in
`session_state.pending_question`.  Only two sites in the code base write
this field: `ask_user_preference` (type `"choice"`, function_registry.py
lines 203-210) and `request_permission` (type `"permission"`, lines
407-415); the inductive mirrors the two dict shapes. -/
inductive PendingQuestion where
  | choice (field : String) (options : List String) (question : String)
      (default? : Option String)
  | permission (permission_type : String) (scope : String) (reason : String)
      (required : Bool) (question : String)
deriving DecidableEq, Repr

/-- An entry of `session_state.function_results`.  Two call sites append
to this list: `FunctionRegistry.execute` (function_registry.py lines
121-126, keys `name`/`args`/`result`/`timestamp` — no `status` key, so
`entry.get("status")` is `None`) and the agent
(`agent.py` lines 823-829, keys `name`/`status`/`timestamp`/`result`). -/
structure FnResultEntry where
  name : String
  status : Option String
deriving DecidableEq, Repr

/-- `SessionState`, `backend/models/schemas.py` lines 181-203.
`permissions` is an association list keyed by scope; `updated_at` is a
natural-number timestamp; `conversation_history` entries are `Message`s. -/
structure SessionState where
  session_id : String
  current_state : ConversationState := ConversationState.INIT
  requirements : ProjectRequirements := {}
  capabilities : Option SystemCapability := none
  permissions : List (String × Permission) := []
  execution_plan : Option ExecutionPlan := none
  execution_results : List ExecutionResult := []
  conversation_history : List Message := []
  pending_question : Option PendingQuestion := none
  waiting_for_user : Bool := false
  completion_percentage : Nat := 0
  error_message : Option String := none
  function_results : List FnResultEntry := []
  capabilities_detected : Bool := false
  validation_completed : Bool := false
  should_regenerate_steps : Bool := false
  user_confirmed_project : Bool := false
  created_at : Nat := 0
  updated_at : Nat := 0
  iteration_count : Nat := 0
  state_version : Nat := 1
deriving DecidableEq, Repr

/-- `SessionState.add_message`, schemas.py lines 205-213 (the wall-clock
write to `updated_at` is not modelled). -/
def SessionState.add_message (s : SessionState) (role content : String) :
    SessionState :=
  { s with conversation_history := s.conversation_history ++ [⟨role, content⟩] }

/-- `SessionState.update_state`, schemas.py lines 215-219. -/
def SessionState.update_state (s : SessionState) (ns : ConversationState) :
    SessionState :=
  { s with current_state := ns, iteration_count := s.iteration_count + 1 }

/-! ## Conversation state machine (`backend/core/state_machine.py`) -/

/-- `StateTransition`, state_machine.py lines 12-37.  The optional
`condition` is a boolean guard over the session (all registered
transitions have no `action`). -/
structure StateTransition where
  from_state : ConversationState
  to_state : ConversationState
  condition : Option (SessionState → Bool) := none

/-- `StateTransition.can_transition`, state_machine.py lines 39-47. -/
def StateTransition.can_transition (t : StateTransition) (s : SessionState) :
    Bool :=
  decide (t.from_state = s.current_state) &&
    (match t.condition with
     | some c => c s
     | none => true)

/-- The non-terminal states, in `ConversationState` enum declaration
order, used by the `for state in ConversationState` loop at
state_machine.py lines 327-340 (ERROR and ABORTED are skipped). -/
def nonTerminalStates : List ConversationState :=
  [ConversationState.INIT, ConversationState.ASK_PROJECT_TYPE,
   ConversationState.ASK_LANGUAGE_PREFERENCE,
   ConversationState.ASK_PROJECT_NAME_FOLDER,
   ConversationState.ASK_ADDITIONAL_DETAILS,
   ConversationState.CHECK_SYSTEM_CAPABILITIES,
   ConversationState.VALIDATE_INFO, ConversationState.SUMMARY_CONFIRMATION,
   ConversationState.PLANNING, ConversationState.EXECUTING,
   ConversationState.VERIFYING, ConversationState.COMPLETED]

/-- The ordered transition table built by `_setup_transitions`,
state_machine.py lines 200-340.  Order matters: `auto_transition` takes
the first transition whose guard holds. -/
def transitionTable : List StateTransition :=
  [ -- INIT -> ASK_PROJECT_TYPE (lines 204-208, unconditional)
    { from_state := ConversationState.INIT,
      to_state := ConversationState.ASK_PROJECT_TYPE },
    -- ASK_PROJECT_TYPE -> ASK_PROJECT_NAME_FOLDER (lines 211-216)
    { from_state := ConversationState.ASK_PROJECT_TYPE,
      to_state := ConversationState.ASK_PROJECT_NAME_FOLDER,
      condition := some fun s => s.requirements.project_type.isSome },
    -- ASK_LANGUAGE_PREFERENCE -> ASK_PROJECT_NAME_FOLDER (lines 219-224)
    { from_state := ConversationState.ASK_LANGUAGE_PREFERENCE,
      to_state := ConversationState.ASK_PROJECT_NAME_FOLDER,
      condition := some fun s => s.requirements.language.isSome },
    -- ASK_PROJECT_NAME_FOLDER -> CHECK_SYSTEM_CAPABILITIES (lines 227-237;
    -- the third conjunct of the source guard is a disjunction ending in
    -- a literal `True`)
    { from_state := ConversationState.ASK_PROJECT_NAME_FOLDER,
      to_state := ConversationState.CHECK_SYSTEM_CAPABILITIES,
      condition := some fun s =>
        s.requirements.project_name.isSome &&
        s.requirements.folder_path.isSome &&
        (s.requirements.database.isSome || true) },
    -- ASK_PROJECT_NAME_FOLDER -> ASK_ADDITIONAL_DETAILS (lines 240-247;
    -- the source guard ends in a literal `False`)
    { from_state := ConversationState.ASK_PROJECT_NAME_FOLDER,
      to_state := ConversationState.ASK_ADDITIONAL_DETAILS,
      condition := some fun s =>
        s.requirements.project_name.isSome &&
        s.requirements.folder_path.isSome && false },
    -- ASK_ADDITIONAL_DETAILS -> CHECK_SYSTEM_CAPABILITIES (lines 250-254)
    { from_state := ConversationState.ASK_ADDITIONAL_DETAILS,
      to_state := ConversationState.CHECK_SYSTEM_CAPABILITIES },
    -- CHECK_SYSTEM_CAPABILITIES -> VALIDATE_INFO (lines 257-264)
    { from_state := ConversationState.CHECK_SYSTEM_CAPABILITIES,
      to_state := ConversationState.VALIDATE_INFO,
      condition := some fun s =>
        match s.capabilities with
        | some c => c.detection_completed
        | none => false },
    -- VALIDATE_INFO -> PLANNING (lines 267-275)
    { from_state := ConversationState.VALIDATE_INFO,
      to_state := ConversationState.PLANNING,
      condition := some fun s =>
        s.capabilities.isSome && s.validation_completed &&
          decide (80 ≤ s.completion_percentage) },
    -- VALIDATE_INFO -> SUMMARY_CONFIRMATION (lines 278-285)
    { from_state := ConversationState.VALIDATE_INFO,
      to_state := ConversationState.SUMMARY_CONFIRMATION,
      condition := some fun s =>
        s.capabilities.isSome && s.validation_completed },
    -- VALIDATE_INFO -> ASK_PROJECT_TYPE (lines 288-293)
    { from_state := ConversationState.VALIDATE_INFO,
      to_state := ConversationState.ASK_PROJECT_TYPE,
      condition := some fun s => decide (s.completion_percentage < 100) },
    -- SUMMARY_CONFIRMATION -> PLANNING (lines 296-300, unconditional)
    { from_state := ConversationState.SUMMARY_CONFIRMATION,
      to_state := ConversationState.PLANNING },
    -- PLANNING -> EXECUTING (lines 303-309)
    { from_state := ConversationState.PLANNING,
      to_state := ConversationState.EXECUTING,
      condition := some fun s =>
        match s.execution_plan with
        | some p => decide (0 < p.steps.length)
        | none => false },
    -- EXECUTING -> VERIFYING (lines 312-317)
    { from_state := ConversationState.EXECUTING,
      to_state := ConversationState.VERIFYING,
      condition := some fun s => decide (0 < s.execution_results.length) },
    -- VERIFYING -> COMPLETED (lines 320-324, unconditional)
    { from_state := ConversationState.VERIFYING,
      to_state := ConversationState.COMPLETED } ]
  ++
  -- Error/abort transitions from every non-terminal state, registered in
  -- enum order by the loop at lines 326-340: a guarded transition to
  -- ERROR (error flag set) followed by an unconditional one to ABORTED.
  (nonTerminalStates.flatMap fun st =>
    [ { from_state := st, to_state := ConversationState.ERROR,
        condition := some fun s => s.error_message.isSome },
      { from_state := st, to_state := ConversationState.ABORTED } ])

/-- `ConversationStateMachine.get_valid_transitions` +
`auto_transition`, state_machine.py lines 79-84 and 130-155: evaluate
the registered transitions in order, take the first whose guard holds,
execute it (`StateTransition.execute` calls `update_state`); return the
updated session, or `none` when no transition is valid. -/
def autoTransition (s : SessionState) : Option SessionState :=
  (transitionTable.find? (fun t => t.can_transition s)).map
    (fun t => s.update_state t.to_state)

/-! ### State-machine lemmas (claims C7 and C10) -/

theorem autoTransition_some {s s' : SessionState}
    (h : autoTransition s = some s') :
    ∃ t ∈ transitionTable, t.can_transition s = true ∧
      s' = s.update_state t.to_state := by
  unfold autoTransition at h
  cases hf : transitionTable.find? (fun t => t.can_transition s) with
  | none => rw [hf] at h; simp at h
  | some t =>
    rw [hf] at h
    refine ⟨t, List.mem_of_find?_eq_some hf, ?_, ?_⟩
    · have hp := List.find?_some hf
      exact hp
    · have hs : some (s.update_state t.to_state) = some s' := h
      exact (Option.some.inj hs).symm

theorem table_to_COMPLETED :
    ∀ t ∈ transitionTable,
      t.to_state = ConversationState.COMPLETED →
      t.from_state = ConversationState.VERIFYING := by
  intro t ht
  fin_cases ht <;> decide

theorem table_to_VERIFYING :
    ∀ t ∈ transitionTable,
      t.to_state = ConversationState.VERIFYING →
      t.from_state = ConversationState.EXECUTING := by
  intro t ht
  fin_cases ht <;> decide

theorem autoTransition_into_COMPLETED {s s' : SessionState}
    (h : autoTransition s = some s')
    (hc : s'.current_state = ConversationState.COMPLETED) :
    s.current_state = ConversationState.VERIFYING := by
  obtain ⟨t, ht, hcan, rfl⟩ := autoTransition_some h
  have hto : t.to_state = ConversationState.COMPLETED := hc
  have hfrom := table_to_COMPLETED t ht hto
  unfold StateTransition.can_transition at hcan
  have := (Bool.and_eq_true _ _).mp hcan
  have heq : t.from_state = s.current_state := of_decide_eq_true this.1
  rw [← heq, hfrom]

theorem autoTransition_into_VERIFYING {s s' : SessionState}
    (h : autoTransition s = some s')
    (hc : s'.current_state = ConversationState.VERIFYING) :
    s.current_state = ConversationState.EXECUTING := by
  obtain ⟨t, ht, hcan, rfl⟩ := autoTransition_some h
  have hto : t.to_state = ConversationState.VERIFYING := hc
  have hfrom := table_to_VERIFYING t ht hto
  unfold StateTransition.can_transition at hcan
  have := (Bool.and_eq_true _ _).mp hcan
  have heq : t.from_state = s.current_state := of_decide_eq_true this.1
  rw [← heq, hfrom]

/-- A run of `auto_transition` steps starting from a session: the trace
records the successive sessions produced by repeated calls (the
orchestrator applies `auto_transition` once per finished turn,
agent.py line 861). -/
inductive AutoChain : SessionState → List SessionState → Prop where
  | nil (s : SessionState) : AutoChain s []
  | cons {s s' : SessionState} {tr : List SessionState} :
      autoTransition s = some s' → AutoChain s' tr → AutoChain s (s' :: tr)

/-- The states visited along a trace. -/
def traceStates (s : SessionState) (tr : List SessionState) :
    List ConversationState :=
  (s :: tr).map (fun x => x.current_state)

theorem completed_in_tail_has_verifying {s : SessionState}
    {tr : List SessionState} (hchain : AutoChain s tr)
    (hmem : ConversationState.COMPLETED ∈ tr.map (fun x => x.current_state)) :
    ConversationState.VERIFYING ∈ traceStates s tr := by
  induction hchain with
  | nil => simp at hmem
  | cons hstep _ ih =>
    rename_i s s' tr' _
    simp only [List.map_cons, List.mem_cons] at hmem
    rcases hmem with hc | hmem
    · have hv := autoTransition_into_COMPLETED hstep hc.symm
      simp [traceStates, hv]
    · have := ih hmem
      simp only [traceStates, List.map_cons, List.mem_cons] at this ⊢
      tauto

theorem verifying_in_tail_has_executing {s : SessionState}
    {tr : List SessionState} (hchain : AutoChain s tr)
    (hmem : ConversationState.VERIFYING ∈ tr.map (fun x => x.current_state)) :
    ConversationState.EXECUTING ∈ traceStates s tr := by
  induction hchain with
  | nil => simp at hmem
  | cons hstep _ ih =>
    rename_i s s' tr' _
    simp only [List.map_cons, List.mem_cons] at hmem
    rcases hmem with hc | hmem
    · have hv := autoTransition_into_VERIFYING hstep hc.symm
      simp [traceStates, hv]
    · have := ih hmem
      simp only [traceStates, List.map_cons, List.mem_cons] at this ⊢
      tauto

/-- **C7.**  Under the `auto_transition` step relation
(state_machine.py lines 130-155 over the table registered at lines
200-340), a session that starts in INIT and holds a non-empty execution
plan never reaches COMPLETED without the trace having passed through
EXECUTING and VERIFYING: the only registered transition into COMPLETED
leaves VERIFYING, and the only one into VERIFYING leaves EXECUTING. -/
theorem autoTransition_completed_passes_executing_verifying
    (s : SessionState) (tr : List SessionState)
    (hchain : AutoChain s tr)
    (hinit : s.current_state = ConversationState.INIT)
    (p : ExecutionPlan) (hplan : s.execution_plan = some p)
    (hnonempty : p.steps ≠ [])
    (hcomp : ConversationState.COMPLETED ∈ traceStates s tr) :
    ConversationState.EXECUTING ∈ traceStates s tr ∧
      ConversationState.VERIFYING ∈ traceStates s tr := by
  have hcomp' : ConversationState.COMPLETED ∈
      tr.map (fun x => x.current_state) := by
    simp only [traceStates, List.map_cons, List.mem_cons, hinit] at hcomp
    rcases hcomp with h | h
    · exact absurd h.symm (by decide)
    · exact h
  have hver := completed_in_tail_has_verifying hchain hcomp'
  have hver' : ConversationState.VERIFYING ∈
      tr.map (fun x => x.current_state) := by
    simp only [traceStates, List.map_cons, List.mem_cons, hinit] at hver
    rcases hver with h | h
    · exact absurd h.symm (by decide)
    · exact h
  exact ⟨verifying_in_tail_has_executing hchain hver', hver⟩

/-- Concrete session used to exercise the C7 theorem: all guards along
the nominal INIT → … → COMPLETED path hold. -/
def c7Session : SessionState :=
  { session_id := "s1",
    current_state := ConversationState.INIT,
    requirements := { project_type := some ProjectType.CLI,
                      language := some "python",
                      project_name := some "todo",
                      folder_path := some "./todo" },
    capabilities := some { detection_completed := true },
    execution_plan := some { steps := [{ command := "mkdir todo",
                                         description := "make dir" }] },
    execution_results := [{ step_index := 0, command := "mkdir todo",
                            success := true }],
    validation_completed := true,
    completion_percentage := 100 }

/-- Iterate `autoTransition` at most `n` times, collecting the trace. -/
def autoTrace : Nat → SessionState → List SessionState
  | 0, _ => []
  | n + 1, s =>
    match h : autoTransition s with
    | some s' => s' :: autoTrace n s'
    | none => []

theorem autoChain_autoTrace (n : Nat) (s : SessionState) :
    AutoChain s (autoTrace n s) := by
  induction n generalizing s with
  | zero => exact AutoChain.nil s
  | succ n ih =>
    unfold autoTrace
    cases h : autoTransition s with
    | none => exact AutoChain.nil s
    | some s' => exact AutoChain.cons h (ih s')

/-- Witness for C7: the concrete eight-step trace from `c7Session`
reaches COMPLETED, and the theorem yields that it passed through
EXECUTING and VERIFYING. -/
theorem c7_witness :
    ConversationState.EXECUTING ∈
        traceStates c7Session (autoTrace 8 c7Session) ∧
      ConversationState.VERIFYING ∈
        traceStates c7Session (autoTrace 8 c7Session) :=
  autoTransition_completed_passes_executing_verifying c7Session
    (autoTrace 8 c7Session) (autoChain_autoTrace 8 c7Session) (by decide)
    { steps := [{ command := "mkdir todo", description := "make dir" }] }
    (by decide) (by decide) (by decide)

/-- **C10.**  `auto_transition` applied to a session in COMPLETED with
no error flag takes the unconditional COMPLETED → ABORTED transition
registered by the loop at state_machine.py lines 336-340 (the guarded
COMPLETED → ERROR transition just before it fails because the error
flag is unset): COMPLETED is not a fixpoint of `auto_transition`. -/
theorem autoTransition_completed_goes_aborted (s : SessionState)
    (h1 : s.current_state = ConversationState.COMPLETED)
    (h2 : s.error_message = none) :
    ∃ s', autoTransition s = some s' ∧
      s'.current_state = ConversationState.ABORTED := by
  obtain ⟨sid, cs, req, caps, perms, plan, res, hist, pq, wait, comp, err,
    fr, cd, vc, srs, ucp, ca, ua, ic, sv⟩ := s
  dsimp only at h1 h2
  subst h1
  subst h2
  exact ⟨_, rfl, rfl⟩

/-- Concrete COMPLETED session for the C10 witness. -/
def c10Session : SessionState :=
  { session_id := "s1", current_state := ConversationState.COMPLETED }

/-- Witness for C10 at a concrete COMPLETED session. -/
theorem c10_witness :
    ∃ s', autoTransition c10Session = some s' ∧
      s'.current_state = ConversationState.ABORTED :=
  autoTransition_completed_goes_aborted c10Session (by decide) (by decide)

/-! ## Session store (`backend/core/session_manager.py`) -/

/-- `settings.SESSION_TIMEOUT` default, config.py line 25 (seconds). -/
def SESSION_TIMEOUT : Nat := 3600

/-- What the on-disk store holds for a session id when `load_state`
runs: no file, an unreadable/invalid file (JSON decode error or
validation error), or a deserializable session document. -/
inductive StoredSession where
  | missing
  | corrupt
  | good (s : SessionState)
deriving Repr

/-- `SessionManager.create_session`, session_manager.py lines 39-77
(no metadata): a fresh INIT session, immediately persisted via
`save_state` (which stamps `updated_at` and bumps the version). -/
def createSession (session_id : String) (now : Nat) : SessionState :=
  let s : SessionState :=
    { session_id := session_id,
      current_state := ConversationState.INIT,
      created_at := now, updated_at := now }
  -- save_state, lines 137-139
  { s with updated_at := now, state_version := s.state_version + 1 }

/-- `SessionManager._is_session_expired`, session_manager.py lines
280-294: `now > updated_at + timeout` (the `not updated_at` guard never
fires: the field is always populated). -/
def isSessionExpired (timeout : Nat) (now : Nat) (s : SessionState) : Bool :=
  decide (s.updated_at + timeout < now)

/-- `SessionManager.load_state`, session_manager.py lines 79-124, as a
total function: a missing file and an unreadable file both fall back to
`create_session` (lines 94-97, 117-124), and an expired session is
returned with state ERROR and an expiry message (lines 110-114) — no
branch propagates an exception to the caller. -/
def loadState (stored : StoredSession) (session_id : String) (now : Nat) :
    SessionState :=
  match stored with
  | StoredSession.missing => createSession session_id now
  | StoredSession.corrupt => createSession session_id now
  | StoredSession.good s =>
    if isSessionExpired SESSION_TIMEOUT now s then
      { s with current_state := ConversationState.ERROR,
               error_message := some "Session expired" }
    else s

/-- **C6.**  `load_state` on a stored session whose `updated_at` plus
the inactivity TTL lies before `now` returns — as a value, never as an
exception — a session in state ERROR whose error message indicates
expiry. -/
theorem loadState_expired_returns_error (s : SessionState)
    (session_id : String) (now : Nat)
    (h : s.updated_at + SESSION_TIMEOUT < now) :
    (loadState (StoredSession.good s) session_id now).current_state =
        ConversationState.ERROR ∧
      (loadState (StoredSession.good s) session_id now).error_message =
        some "Session expired" := by
  have hb : isSessionExpired SESSION_TIMEOUT now s = true := by
    unfold isSessionExpired
    simpa using h
  simp [loadState, hb]

/-- Witness for C6: a session last saved at time 0 loaded at time 3601. -/
theorem c6_witness :
    (loadState (StoredSession.good { session_id := "s1" }) "s1"
        3601).current_state = ConversationState.ERROR ∧
      (loadState (StoredSession.good { session_id := "s1" }) "s1"
        3601).error_message = some "Session expired" :=
  loadState_expired_returns_error { session_id := "s1" } "s1" 3601 (by decide)

/-! ## Command execution engine (`backend/execution/engine.py`) -/

/-- Helper for `pySplit`: scan the characters, accumulating the current
token (reversed). -/
def pySplitAux : List Char → List Char → List String
  | [], acc => if acc.isEmpty then [] else [String.mk acc.reverse]
  | c :: cs, acc =>
    if c.isWhitespace then
      if acc.isEmpty then pySplitAux cs []
      else String.mk acc.reverse :: pySplitAux cs []
    else pySplitAux cs (c :: acc)

/-- Python `str.split()` (no argument): split on runs of whitespace,
dropping empty pieces.  Used by `execute_step` to parse the command. -/
def pySplit (s : String) : List String :=
  pySplitAux s.toList []

/-- Outcome of the subprocess machinery for one `execute_step` call:
the process completed with an exit code and output lines, the
`asyncio.wait_for` timed out, or the setup raised (missing binary,
directory-creation failure, …).  This is the oracle input standing for
the host system. -/
inductive StepOutcome where
  | completed (exit_code : Int) (stdout stderr : List String)
  | timedOut (stdout stderr : List String)
  | raised (msg : String)
deriving Repr

/-- `ExecutionEngine.execute_step`, engine.py lines 106-264.  Total at
its interface: every branch — including the empty-command `ValueError`
(line 131), the timeout handler (lines 194-205) and the outer
`except` (lines 237-264) — returns an `ExecutionResult`. -/
def executeStep (step : ExecutionStep) (step_index : Nat)
    (out : StepOutcome) : ExecutionResult :=
  if (pySplit step.command).isEmpty then
    -- `raise ValueError("Empty command")`, caught at line 237
    { step_index := step_index, command := step.command, success := false,
      stdout := "", stderr := "Empty command", exit_code := 1 }
  else
    match out with
    | StepOutcome.raised msg =>
      -- outer except-branch, lines 237-264
      { step_index := step_index, command := step.command, success := false,
        stdout := "", stderr := msg, exit_code := 1 }
    | StepOutcome.completed ec so se =>
      -- normal completion, lines 183-235: success = (exit_code == 0)
      { step_index := step_index, command := step.command,
        success := decide (ec = 0),
        stdout := String.intercalate "\n" so,
        stderr := String.intercalate "\n" se, exit_code := ec }
    | StepOutcome.timedOut so se =>
      -- asyncio.TimeoutError, lines 194-205: exit_code = 1, a timeout
      -- line is appended to stderr, success = (exit_code == 0)
      { step_index := step_index, command := step.command,
        success := decide ((1 : Int) = 0),
        stdout := String.intercalate "\n" so,
        stderr := String.intercalate "\n"
          (se ++ ["Command timed out after " ++ toString step.timeout ++
                  " seconds"]),
        exit_code := 1 }

/-- The outcomes that correspond to an internal error of
`execute_step` (timeout or raised exception). -/
def StepOutcome.isErr : StepOutcome → Bool
  | StepOutcome.completed _ _ _ => false
  | StepOutcome.timedOut _ _ => true
  | StepOutcome.raised _ => true

/-- **C9.**  `execute_step` always returns an `ExecutionResult` (it is
a total function of the step and the subprocess outcome — no branch
propagates an exception); its `success` field is true exactly when the
recorded `exit_code` is 0, and every internal-error outcome (empty
command, raised exception, timeout) yields `success = false` with
`exit_code = 1`. -/
theorem executeStep_total_and_success_iff (step : ExecutionStep)
    (i : Nat) (out : StepOutcome) :
    ((executeStep step i out).success = true ↔
        (executeStep step i out).exit_code = 0) ∧
      (out.isErr = true →
        (executeStep step i out).success = false ∧
          (executeStep step i out).exit_code = 1) ∧
      ((pySplit step.command).isEmpty = true →
        (executeStep step i out).success = false ∧
          (executeStep step i out).exit_code = 1) := by
  unfold executeStep
  by_cases hc : (pySplit step.command).isEmpty
  · simp [hc]
  · cases out with
    | completed ec so se =>
      refine ⟨?_, by simp [StepOutcome.isErr], by simp [hc]⟩
      simp [hc, decide_eq_true_eq]
    | timedOut so se => simp [hc, StepOutcome.isErr]
    | raised msg => simp [hc, StepOutcome.isErr]

/-- Witness for C9 on a concrete step and a timeout outcome. -/
theorem c9_witness :
    ((executeStep { command := "npm install", description := "install" } 0
          (StepOutcome.timedOut [] [])).success = true ↔
        (executeStep { command := "npm install", description := "install" } 0
          (StepOutcome.timedOut [] [])).exit_code = 0) ∧
      ((StepOutcome.timedOut [] []).isErr = true →
        (executeStep { command := "npm install", description := "install" } 0
            (StepOutcome.timedOut [] [])).success = false ∧
          (executeStep { command := "npm install", description := "install" }
            0 (StepOutcome.timedOut [] [])).exit_code = 1) ∧
      ((pySplit "npm install").isEmpty = true →
        (executeStep { command := "npm install", description := "install" } 0
            (StepOutcome.timedOut [] [])).success = false ∧
          (executeStep { command := "npm install", description := "install" }
            0 (StepOutcome.timedOut [] [])).exit_code = 1) :=
  executeStep_total_and_success_iff
    { command := "npm install", description := "install" } 0
    (StepOutcome.timedOut [] [])

/-- The subprocess outcomes for successive `execute_step` calls during
one `execute_plan` run, indexed by call number. -/
def PlanEnv := Nat → StepOutcome

/-- The fallback step built at engine.py lines 86-91. -/
def fallbackStep (step : ExecutionStep) (fb : String) : ExecutionStep :=
  { command := fb, description := "Fallback for: " ++ step.description,
    working_directory := step.working_directory, timeout := step.timeout }

/-- The step loop of `ExecutionEngine.execute_plan`, engine.py lines
44-102: run each step in order (`k` counts `execute_step` calls, `i` is
the plan index); on failure without fallback stop (line 80); on failure
with fallback run the fallback as the same index, mark it
`fallback_used` (lines 82-97), stop if it also fails (line 101),
otherwise continue with the next step. -/
def executePlanGo (env : PlanEnv) : Nat → Nat → List ExecutionStep →
    List ExecutionResult
  | _, _, [] => []
  | k, i, step :: rest =>
    let r := executeStep step i (env k)
    if r.success then r :: executePlanGo env (k + 1) (i + 1) rest
    else
      match step.fallback_command with
      | none => [r]
      | some fb =>
        let fr0 := executeStep (fallbackStep step fb) i (env (k + 1))
        let fr := { fr0 with fallback_used := true }
        if fr.success then r :: fr :: executePlanGo env (k + 2) (i + 1) rest
        else [r, fr]

/-- `ExecutionEngine.execute_plan`, engine.py lines 23-104. -/
def executePlan (plan : ExecutionPlan) (env : PlanEnv) :
    List ExecutionResult :=
  executePlanGo env 0 0 plan.steps

/-- **C8.**  In any plan, a step whose primary command fails but whose
fallback command succeeds is reported as a success for that step index
with `fallback_used = true`, and execution continues past it with the
remaining steps (engine.py lines 82-97). -/
theorem executePlan_fallback_recovers (env : PlanEnv) (k i : Nat)
    (step : ExecutionStep) (rest : List ExecutionStep) (fb : String)
    (hfb : step.fallback_command = some fb)
    (hfail : (executeStep step i (env k)).success = false)
    (hfbok : (executeStep (fallbackStep step fb) i (env (k + 1))).success =
      true) :
    executePlanGo env k i (step :: rest) =
        executeStep step i (env k) ::
          { executeStep (fallbackStep step fb) i (env (k + 1)) with
              fallback_used := true } ::
          executePlanGo env (k + 2) (i + 1) rest ∧
      ({ executeStep (fallbackStep step fb) i (env (k + 1)) with
          fallback_used := true } : ExecutionResult).success = true ∧
      ({ executeStep (fallbackStep step fb) i (env (k + 1)) with
          fallback_used := true } : ExecutionResult).fallback_used = true ∧
      ({ executeStep (fallbackStep step fb) i (env (k + 1)) with
          fallback_used := true } : ExecutionResult).step_index = i := by
  refine ⟨?_, by simpa using hfbok, rfl, ?_⟩
  · simp [executePlanGo, hfail, hfb, hfbok]
  · show (executeStep (fallbackStep step fb) i (env (k + 1))).step_index = i
    unfold executeStep
    by_cases hc : (pySplit (fallbackStep step fb).command).isEmpty
    · simp [hc]
    · cases env (k + 1) <;> simp [hc]

/-- C8 witness plan, step 0: always fails, carries a fallback. -/
def c8Step0 : ExecutionStep :=
  { command := "npx bad-cli init", description := "scaffold",
    fallback_command := some "npx create-expo-app" }

/-- C8 witness plan, step 1. -/
def c8Step1 : ExecutionStep :=
  { command := "git init", description := "init repo" }

/-- Oracle for the C8 witness: call 0 (primary of step 0) exits 1,
call 1 (fallback of step 0) exits 0, call 2 (step 1) exits 0. -/
def c8Env : PlanEnv := fun k =>
  if k = 0 then StepOutcome.completed 1 [] ["scaffold failed"]
  else StepOutcome.completed 0 [] []

/-- Witness for C8: on `c8Plan` the fallback result for step 0 is a
success with `fallback_used = true` and step 1 still runs. -/
theorem c8_witness :
    executePlanGo c8Env 0 0 [c8Step0, c8Step1] =
        executeStep c8Step0 0 (c8Env 0) ::
          { executeStep (fallbackStep c8Step0 "npx create-expo-app")
              0 (c8Env 1) with fallback_used := true } ::
          executePlanGo c8Env 2 1 [c8Step1] ∧
      ({ executeStep (fallbackStep c8Step0 "npx create-expo-app")
          0 (c8Env 1) with fallback_used := true } : ExecutionResult).success =
        true ∧
      ({ executeStep (fallbackStep c8Step0 "npx create-expo-app")
          0 (c8Env 1) with
          fallback_used := true } : ExecutionResult).fallback_used = true ∧
      ({ executeStep (fallbackStep c8Step0 "npx create-expo-app")
          0 (c8Env 1) with
          fallback_used := true } : ExecutionResult).step_index = 0 :=
  executePlan_fallback_recovers c8Env 0 0 c8Step0 [c8Step1]
    "npx create-expo-app" (by decide) (by decide) (by decide)

/-! ## Python string primitives used by the handlers -/

/-- Python `str.lower()` (ASCII case folding suffices here). -/
def pyLower (s : String) : String :=
  String.mk (s.toList.map Char.toLower)

/-- Python `str.strip()`: drop leading and trailing whitespace. -/
def pyStrip (s : String) : String :=
  String.mk
    (((s.toList.dropWhile Char.isWhitespace).reverse.dropWhile
        Char.isWhitespace).reverse)

/-- Whether `pat` occurs at the head of `txt`. -/
def leadMatch : List Char → List Char → Bool
  | [], _ => true
  | _ :: _, [] => false
  | p :: ps, t :: ts => p == t && leadMatch ps ts

/-- Whether `pat` occurs somewhere in `txt`. -/
def subMatch (pat : List Char) : List Char → Bool
  | [] => pat.isEmpty
  | t :: ts => leadMatch pat (t :: ts) || subMatch pat ts

/-- Python `needle in hay` on strings (substring test). -/
def pyIn (needle hay : String) : Bool :=
  subMatch needle.toList hay.toList

/-- Python truthiness of an optional string (`None` and `""` are falsy). -/
def optTruthy : Option String → Bool
  | none => false
  | some s => !(s = "")

/-! ## Action registry (`backend/gemini/function_registry.py`) -/

/-- `ProjectType.value` (the string values of the Python enum). -/
def ProjectType.value : ProjectType → String
  | ProjectType.WEB_API => "web_api"
  | ProjectType.FRONTEND => "frontend"
  | ProjectType.CLI => "cli"
  | ProjectType.MOBILE_APP => "mobile_app"
  | ProjectType.FULLSTACK => "fullstack"
  | ProjectType.LIBRARY => "library"
  | ProjectType.MICROSERVICE => "microservice"

/-- The enum members in declaration order (Python iteration order). -/
def projectTypeMembers : List ProjectType :=
  [ProjectType.WEB_API, ProjectType.FRONTEND, ProjectType.CLI,
   ProjectType.MOBILE_APP, ProjectType.FULLSTACK, ProjectType.LIBRARY,
   ProjectType.MICROSERVICE]

/-- `FunctionRegistry._map_project_type_string` mapping dict,
function_registry.py lines 3360-3410, in insertion order. -/
def registryProjectTypeMappings : List (String × ProjectType) :=
  [("web app", ProjectType.FULLSTACK), ("web application", ProjectType.FULLSTACK),
   ("website", ProjectType.FRONTEND), ("frontend", ProjectType.FRONTEND),
   ("web frontend", ProjectType.FRONTEND), ("react app", ProjectType.FRONTEND),
   ("vue app", ProjectType.FRONTEND), ("angular app", ProjectType.FRONTEND),
   ("api", ProjectType.WEB_API), ("web api", ProjectType.WEB_API),
   ("rest api", ProjectType.WEB_API), ("backend", ProjectType.WEB_API),
   ("web backend", ProjectType.WEB_API), ("server", ProjectType.WEB_API),
   ("fullstack", ProjectType.FULLSTACK), ("full stack", ProjectType.FULLSTACK),
   ("full-stack", ProjectType.FULLSTACK), ("fullstack app", ProjectType.FULLSTACK),
   ("todo app", ProjectType.FULLSTACK),
   ("web app with backend", ProjectType.FULLSTACK),
   ("cli", ProjectType.CLI), ("command line", ProjectType.CLI),
   ("command line tool", ProjectType.CLI), ("terminal app", ProjectType.CLI),
   ("script", ProjectType.CLI), ("tool", ProjectType.CLI),
   ("mobile", ProjectType.MOBILE_APP), ("mobile app", ProjectType.MOBILE_APP),
   ("android app", ProjectType.MOBILE_APP), ("ios app", ProjectType.MOBILE_APP),
   ("library", ProjectType.LIBRARY), ("package", ProjectType.LIBRARY),
   ("sdk", ProjectType.LIBRARY),
   ("microservice", ProjectType.MICROSERVICE),
   ("micro service", ProjectType.MICROSERVICE),
   ("service", ProjectType.MICROSERVICE)]

/-- `ConversationAgent._map_project_type_string` mapping dict, agent.py
lines 1011-1059 (the agent copy lacks the `"script"`/`"tool"` entries of
the registry copy). -/
def agentProjectTypeMappings : List (String × ProjectType) :=
  [("web app", ProjectType.FULLSTACK), ("web application", ProjectType.FULLSTACK),
   ("website", ProjectType.FRONTEND), ("frontend", ProjectType.FRONTEND),
   ("web frontend", ProjectType.FRONTEND), ("react app", ProjectType.FRONTEND),
   ("vue app", ProjectType.FRONTEND), ("angular app", ProjectType.FRONTEND),
   ("api", ProjectType.WEB_API), ("web api", ProjectType.WEB_API),
   ("rest api", ProjectType.WEB_API), ("backend", ProjectType.WEB_API),
   ("web backend", ProjectType.WEB_API), ("server", ProjectType.WEB_API),
   ("fullstack", ProjectType.FULLSTACK), ("full stack", ProjectType.FULLSTACK),
   ("full-stack", ProjectType.FULLSTACK), ("fullstack app", ProjectType.FULLSTACK),
   ("todo app", ProjectType.FULLSTACK),
   ("web app with backend", ProjectType.FULLSTACK),
   ("cli", ProjectType.CLI), ("command line", ProjectType.CLI),
   ("command line tool", ProjectType.CLI), ("terminal app", ProjectType.CLI),
   ("mobile", ProjectType.MOBILE_APP), ("mobile app", ProjectType.MOBILE_APP),
   ("android app", ProjectType.MOBILE_APP), ("ios app", ProjectType.MOBILE_APP),
   ("library", ProjectType.LIBRARY), ("package", ProjectType.LIBRARY),
   ("sdk", ProjectType.LIBRARY),
   ("microservice", ProjectType.MICROSERVICE),
   ("micro service", ProjectType.MICROSERVICE),
   ("service", ProjectType.MICROSERVICE)]

/-- `_map_project_type_string` (function_registry.py lines 3352-3431 and
agent.py lines 1003-1080 share this shape): exact dict lookup, then
partial match in insertion order, then direct enum-value match, then
FULLSTACK as fallback. -/
def mapProjectTypeWith (table : List (String × ProjectType))
    (input : String) : ProjectType :=
  let l := pyLower (pyStrip input)
  match table.find? (fun kv => kv.1 = l) with
  | some kv => kv.2
  | none =>
    match table.find? (fun kv => pyIn kv.1 l || pyIn l kv.1) with
    | some kv => kv.2
    | none =>
      match projectTypeMembers.find? (fun pt => pyLower pt.value = l) with
      | some pt => pt
      | none => ProjectType.FULLSTACK

/-- The keyword arguments accepted by `update_project_requirements`
(a `**kwargs` dict; absent keys are `none`).  `project_type` arrives as
a user-facing string and is mapped to the enum before being stored. -/
structure ReqKwargs where
  project_type : Option String := none
  language : Option String := none
  framework : Option String := none
  project_name : Option String := none
  folder_path : Option String := none
  database : Option String := none
  authentication : Option Bool := none
  testing : Option Bool := none
  docker : Option Bool := none
deriving Repr

/-- CLI indicators checked against the project name,
function_registry.py line 264. -/
def cliNameIndicators : List String := ["todo", "cli", "script", "command"]

/-- CLI terms checked against recent conversation,
function_registry.py line 272. -/
def cliContextTerms : List String := ["python script", "todo", "command line", "cli"]

/-- `update_project_requirements`, function_registry.py lines 229-293.
The react-native-blocking scan at lines 238-258 is a no-op on every
reachable state: it reads `result.get('failed_command', '')` from the
`function_results` entries, which never carry a top-level
`failed_command` key, so the blocking condition
`'react-native' in ''` is always false; it is therefore omitted.
Returns the updated session and the result status. -/
def updateProjectRequirements (s : SessionState) (kw : ReqKwargs) :
    SessionState × String :=
  -- CLI auto-detection, lines 261-274
  let kw :=
    if kw.project_name.isSome && kw.project_type.isNone then
      let pname := pyLower (kw.project_name.getD "")
      if cliNameIndicators.any (fun t => pyIn t pname) then
        let recent := pyLower (String.intercalate " "
          ((s.conversation_history.drop
              (s.conversation_history.length - 5)).map (fun m => m.content)))
        if cliContextTerms.any (fun t => pyIn t recent) then
          { kw with project_type := some "cli" }
        else kw
      else kw
    else kw
  -- setattr loop, lines 277-285 (project_type goes through the mapper)
  let req := s.requirements
  let req := match kw.project_type with
    | some v =>
        { req with
          project_type := some (mapProjectTypeWith registryProjectTypeMappings v) }
    | none => req
  let req := match kw.language with
    | some v => { req with language := some v } | none => req
  let req := match kw.framework with
    | some v => { req with framework := some v } | none => req
  let req := match kw.project_name with
    | some v => { req with project_name := some v } | none => req
  let req := match kw.folder_path with
    | some v => { req with folder_path := some v } | none => req
  let req := match kw.database with
    | some v => { req with database := some v } | none => req
  let req := match kw.authentication with
    | some v => { req with authentication := v } | none => req
  let req := match kw.testing with
    | some v => { req with testing := v } | none => req
  let req := match kw.docker with
    | some v => { req with docker := v } | none => req
  -- completion percentage, lines 288-291: `is not None` over the four
  -- required fields, times 25
  let completed :=
    [req.project_type.isSome, req.language.isSome, req.project_name.isSome,
     req.folder_path.isSome].count true
  ({ s with requirements := req, completion_percentage := completed * 25 },
   "updated")

/-- `ask_user_preference`, function_registry.py lines 193-211: store a
choice question, raise the waiting flag, status `waiting_for_user`. -/
def askUserPreference (s : SessionState) (field : String)
    (options : List String) (question : String) (dflt : Option String) :
    SessionState × String :=
  ({ s with
      pending_question := some (PendingQuestion.choice field options question dflt),
      waiting_for_user := true },
   "waiting_for_user")

/-- `plan_execution_step`, function_registry.py lines 312-334. -/
def planExecutionStep (s : SessionState) (step : ExecutionStep) :
    SessionState × String :=
  let plan := (s.execution_plan.getD { steps := [] })
  ({ s with execution_plan := some { steps := plan.steps ++ [step] } },
   "step_added")

/-- `update_conversation_state`, function_registry.py lines 352-377
(the target state arrives as a valid enum value; `state_history` is not
modelled). -/
def updateConversationState (s : SessionState) (ns : ConversationState) :
    SessionState × String :=
  (s.update_state ns, "state_updated")

/-- Python dict insertion `d[k] = v` on the permissions map. -/
def permInsert (l : List (String × Permission)) (k : String)
    (v : Permission) : List (String × Permission) :=
  if l.any (fun kv => kv.1 = k) then
    l.map (fun kv => if kv.1 = k then (k, v) else kv)
  else l ++ [(k, v)]

/-- `request_permission`, function_registry.py lines 397-417: store a
permission question, raise the waiting flag, status
`permission_requested`. -/
def requestPermission (s : SessionState) (ptype scope reason : String)
    (required : Bool) : SessionState × String :=
  ({ s with
      pending_question := some (PendingQuestion.permission ptype scope reason
        required ("Grant " ++ ptype ++ " permission for: " ++ scope)),
      waiting_for_user := true },
   "permission_requested")

/-- `validate_requirements`, function_registry.py lines 429-460: count
the truthy required fields and store the completion percentage. -/
def validateRequirements (s : SessionState) : SessionState × String :=
  let req := s.requirements
  let present :=
    [req.project_type.isSome, optTruthy req.language,
     optTruthy req.project_name, optTruthy req.folder_path].count true
  ({ s with completion_percentage := present * 25 }, "validated")

/-- `detect_system_capabilities`, function_registry.py lines 472-502.
The probe result is oracle input; `none` stands for the detector
raising (caught, status `detection_failed`, no session change).  On
success the snapshot is stored with `detection_completed = True`. -/
def detectSystemCapabilities (s : SessionState)
    (probed : Option SystemCapability) : SessionState × String :=
  match probed with
  | some caps =>
    ({ s with capabilities := some { caps with detection_completed := true } },
     "capabilities_detected")
  | none => (s, "detection_failed")

/-- The language auto-correction step of
`validate_requirements_against_capabilities`, function_registry.py
lines 541-613: when the requested language is not among the runtime
names derived from the capability snapshot and auto-correction is on
with at least one runtime known, the language is replaced by a
capability-derived choice (that deterministic choice over the snapshot
text is abstracted as `correctedLang`). -/
def vracCorrectLanguage (s : SessionState) (caps : SystemCapability)
    (auto_correct : Bool) (correctedLang : String) : SessionState :=
  let runtimeNames :=
    (if caps.python_version.isSome then ["python", "python3"] else []) ++
    (if caps.node_version.isSome then ["javascript", "node", "nodejs"] else []) ++
    (caps.available_runtimes.map (fun kv => kv.1))
  let haveAnyRuntime :=
    caps.python_version.isSome || caps.node_version.isSome ||
      !caps.available_runtimes.isEmpty
  match s.requirements.language with
  | some lang =>
    if runtimeNames.contains (pyLower lang) then s
    else if auto_correct && haveAnyRuntime then
      { s with requirements :=
          { s.requirements with language := some correctedLang } }
    else s
  | none => s

/-- `validate_requirements_against_capabilities`, function_registry.py
lines 515-656.  The `not session_state.requirements` guard never fires
(the pydantic model object is always truthy).  The language
auto-correction (lines 541-613) replaces an unavailable language by a
capability-derived choice; that deterministic choice over the snapshot
text is abstracted as the oracle argument `correctedLang`, applied
exactly when the source would correct (requested language set but not
among the available runtime names, `auto_correct` on, and at least one
runtime known).  Afterwards `validation_completed` is set and
`auto_transition` is invoked on a fresh state machine (lines 618-627). -/
def validateRequirementsAgainstCapabilities (s : SessionState)
    (auto_correct : Bool) (correctedLang : String) : SessionState × String :=
  match s.capabilities with
  | none => (s, "validation_failed")
  | some caps =>
    let s := vracCorrectLanguage s caps auto_correct correctedLang
    let s := { s with validation_completed := true }
    let s := (autoTransition s).getD s
    (s, "validation_complete")

/-- `confirm_project_creation`, function_registry.py lines 670-724. -/
def confirmProjectCreation (s : SessionState) (user_confirmed : Bool) :
    SessionState × String :=
  if user_confirmed then
    ({ s.update_state ConversationState.PLANNING with
        user_confirmed_project := true }, "confirmed")
  else
    ({ s with user_confirmed_project := false }, "modification_requested")

/-- `generate_execution_plan`, function_registry.py lines 736-773.
The planner output is oracle input (`none` = planner raised). -/
def generateExecutionPlan (s : SessionState) (plan : Option ExecutionPlan) :
    SessionState × String :=
  match s.capabilities with
  | none => (s, "planning_failed")
  | some _ =>
    match plan with
    | some p => ({ s with execution_plan := some p }, "plan_generated")
    | none => (s, "planning_failed")

/-- `execute_project_creation`, function_registry.py lines 1549-1583:
run the stored plan through the execution engine and record the
results. -/
def executeProjectCreation (s : SessionState) (env : PlanEnv) :
    SessionState × String :=
  match s.execution_plan with
  | none => (s, "execution_failed")
  | some plan =>
    let results := executePlan plan env
    ({ s with execution_results := results }, "execution_completed")

/-- `run_verification_tests`, function_registry.py lines 1795-1823
(no session mutation; the tester outcome is oracle input). -/
def runVerificationTests (s : SessionState) (ok : Bool) :
    SessionState × String :=
  match s.capabilities with
  | none => (s, "verification_failed")
  | some _ => (s, if ok then "verification_completed" else "verification_failed")

/-- A step dict passed to `create_project_with_steps`
(schema at function_registry.py lines 781-797). -/
structure StepData where
  command : String
  description : String
  working_directory : Option String := none
  file_path : Option String := none
  file_content : Option String := none
deriving DecidableEq, Repr

/-- Outcome of the `ai_generate_project_steps` reasoning call
(function_registry.py lines 1826-2038): a parsed step list (possibly
empty — the `steps_generated_text` path carries `steps = []`), or a
generation failure. -/
inductive RegenOutcome where
  | generated (steps : List StepData)
  | failed
deriving Repr

/-- `ai_generate_project_steps` (no session mutation): status string
from the oracle outcome. -/
def aiGenerateProjectSteps (s : SessionState) (out : RegenOutcome) :
    SessionState × String :=
  match out with
  | RegenOutcome.generated _ => (s, "steps_generated")
  | RegenOutcome.failed => (s, "generation_failed")

/-- `ai_generate_file_content` / `generate_file_content` (no session
mutation; statuses `content_generated`/`generation_failed`). -/
def generateFileContent (s : SessionState) (ok : Bool) :
    SessionState × String :=
  (s, if ok then "content_generated" else "generation_failed")

/-- `generate_project_report`, function_registry.py lines 3214-3262
(no session mutation). -/
def generateProjectReport (s : SessionState) (ok : Bool) :
    SessionState × String :=
  (s, if ok then "reports_generated" else "report_generation_failed")

/-- Outcome of the `suggest_alternative_command` reasoning call
(function_registry.py lines 2825-2924). -/
inductive AltOutcome where
  | alternativeFound (cmd : String)
  | techSwitchNeeded
  | noAlternative
  | errored (msg : String)
deriving Repr

/-- `suggest_alternative_command` (no session mutation): the
`attempt_number > 2` cap short-circuits to `max_attempts_reached`;
otherwise the status follows the AI outcome. -/
def suggestAlternativeCommand (s : SessionState) (attempt_number : Nat)
    (ai : AltOutcome) : SessionState × String :=
  if 2 < attempt_number then (s, "max_attempts_reached")
  else
    match ai with
    | AltOutcome.alternativeFound _ => (s, "alternative_found")
    | AltOutcome.techSwitchNeeded => (s, "tech_switch_needed")
    | AltOutcome.noAlternative => (s, "no_alternative")
    | AltOutcome.errored _ => (s, "error")

/-- Outcome of the `fail_technology_and_switch` reasoning call
(function_registry.py lines 3082-3204): a validated (or
capability-fallback-after-invalid) recommendation, which resets the
execution state before storing the new stack; the JSON-decode-error
fallback, which stores the new stack without the reset; or a failure. -/
inductive SwitchOutcome where
  | switchedValidated (lang fw : String)
  | switchedFallback (lang fw : String)
  | failed (err : String)
deriving Repr

/-- `FunctionRegistry._reset_execution_state`, function_registry.py
lines 3527-3553. -/
def resetExecutionState (s : SessionState) : SessionState :=
  { s with execution_results := [], execution_plan := none,
           completion_percentage := 0, error_message := none,
           should_regenerate_steps := true,
           state_version := s.state_version + 1 }

/-- `fail_technology_and_switch`, function_registry.py lines 2939-3211:
detect capabilities if missing (oracle `detected`), then apply the
switch outcome.  A validated recommendation runs
`_reset_execution_state` and stores the new language/framework (lines
3141-3147); the JSON-fallback path stores them without the reset
(lines 3182-3184); both return `technology_switched`. -/
def failTechnologyAndSwitch (s : SessionState) (detected : SystemCapability)
    (sw : SwitchOutcome) : SessionState × String :=
  let s := if s.capabilities.isSome then s
           else { s with capabilities := some detected }
  match sw with
  | SwitchOutcome.switchedValidated lang fw =>
    let s := resetExecutionState s
    ({ s with requirements :=
        { s.requirements with language := some lang, framework := some fw } },
     "technology_switched")
  | SwitchOutcome.switchedFallback lang fw =>
    ({ s with requirements :=
        { s.requirements with language := some lang, framework := some fw } },
     "technology_switched")
  | SwitchOutcome.failed _ => (s, "switch_failed")

/-! ### State gating and dispatch -/

/-- The INIT blocked-function list, function_registry.py lines
3563-3578 (`update_project_requirements` is commented out there). -/
def initBlockedFunctions : List String :=
  ["create_project_with_steps", "generate_file_content",
   "ai_generate_project_steps", "validate_requirements_against_capabilities",
   "fail_technology_and_switch"]

/-- The functions removed from the INIT blocked list when the
requirement fields are set, function_registry.py lines 3587-3596. -/
def initUnblockedWhenReqsSet : List String :=
  ["ai_generate_project_steps", "create_project_with_steps",
   "fail_technology_and_switch"]

/-- Truthiness of `reqs.project_type and reqs.language and
reqs.project_name` (function_registry.py lines 3584 and 3657). -/
def reqsTruthySet (s : SessionState) : Bool :=
  s.requirements.project_type.isSome && optTruthy s.requirements.language &&
    optTruthy s.requirements.project_name

/-- `FunctionRegistry._validate_function_for_state`, function_registry.py
lines 3555-3608: restrictions exist only for INIT; there an explicitly
blocked function yields an error message (everything else — and every
other state — passes). -/
def validateFunctionForState (name : String) (s : SessionState) :
    Option String :=
  if s.current_state = ConversationState.INIT then
    let blocked :=
      if reqsTruthySet s then
        initBlockedFunctions.filter (fun f => decide (f ∉ initUnblockedWhenReqsSet))
      else initBlockedFunctions
    if name ∈ blocked then
      some ("Function " ++ name ++ " is not allowed in INIT state")
    else none
  else none

/-- `FunctionRegistry._get_allowed_functions_for_state`,
function_registry.py lines 3610-3629: the per-state allow-lists exposed
alongside a rejection. -/
def allowedFunctionsForState : ConversationState → List String
  | ConversationState.INIT => ["request_permission", "detect_system_capabilities"]
  | ConversationState.ASK_PROJECT_TYPE =>
      ["update_project_requirements", "detect_system_capabilities"]
  | ConversationState.PLANNING =>
      ["ai_generate_project_steps", "create_project_with_steps"]
  | _ => ["All functions allowed"]

/-- The function names treated as project creation by
`_handle_missing_requirements`, function_registry.py lines 3643-3648. -/
def projectCreationFunctions : List String :=
  ["create_project_with_steps", "generate_file_content",
   "ai_generate_project_steps", "fail_technology_and_switch"]

/-- `FunctionRegistry._handle_missing_requirements`, function_registry.py
lines 3631-3688: in INIT, before dispatching a project-creation
function with unset requirement fields, extract requirements from the
conversation (the AI extraction is the oracle argument; `none` covers
both an empty extraction and a raised error), apply them through the
`update_project_requirements` handler, and hop the state to
ASK_PROJECT_TYPE.  Returns the updated session and whether an
intervention happened. -/
def handleMissingRequirements (name : String) (extract : Option ReqKwargs)
    (s : SessionState) : SessionState × Bool :=
  if s.current_state ≠ ConversationState.INIT then (s, false)
  else if name ∉ projectCreationFunctions then (s, false)
  else if reqsTruthySet s then (s, false)
  else
    match extract with
    | none => (s, false)
    | some kw =>
      let s1 := (updateProjectRequirements s kw).1
      let s2 :=
        if s1.current_state = ConversationState.INIT then
          { s1 with current_state := ConversationState.ASK_PROJECT_TYPE }
        else s1
      (s2, true)

/-- The dispatch pipeline of `FunctionRegistry.execute` for one
registered function, function_registry.py lines 83-157: run the
missing-requirements auto-intervention, then the state gate (a blocked
call returns `blocked_by_state_machine` without running the handler),
then the handler, then append the `{name, args, result}` entry (which
carries no top-level `status` key) to `function_results`. -/
def executePipeline (name : String) (extract : Option ReqKwargs)
    (handler : SessionState → SessionState × String) (s : SessionState) :
    SessionState × String :=
  let s1 := (handleMissingRequirements name extract s).1
  match validateFunctionForState name s1 with
  | some _ => (s1, "blocked_by_state_machine")
  | none =>
    let (s2, status) := handler s1
    ({ s2 with function_results :=
        s2.function_results ++ [{ name := name, status := none }] },
     status)

/-! ### `create_project_with_steps` (function_registry.py lines 800-1537) -/

/-- Oracle data consumed by one `create_project_with_steps` run: the
success of each spawned shell command (primary and AI-alternative runs,
in call order), the AI alternative-command suggestions, the technology
switches together with the conversation-extraction used by the nested
registry dispatch, and the step-regeneration results. -/
structure CreateEnv where
  runShell : Nat → Bool
  alt : Nat → AltOutcome
  switch : Nat → SwitchOutcome
  switchCaps : Nat → SystemCapability
  switchExtract : Nat → Option ReqKwargs
  regen : Nat → RegenOutcome

/-- Mutable state of the step loop (`results` keeps the success flag of
each appended per-step result dict; `failedSteps` is
`len(failed_steps)`; the counters index the oracle streams; `stepsLen`
tracks `len(steps)` of the current list). -/
structure LoopSt where
  session : SessionState
  results : List Bool
  failedSteps : Nat
  shellCalls : Nat
  altCalls : Nat
  switchCalls : Nat
  regenCalls : Nat
  stepsLen : Nat

/-- How the step loop ended: the while-condition failed (steps
exhausted or the 5-cycle cap reached), the `break` on a
switch-recommended recovery fired, or a mid-run regeneration failed
(the `regenerate_steps_failed` return at lines 1042-1047). -/
inductive LoopExit where
  | finished
  | broke
  | regenFailed
deriving DecidableEq, Repr

/-- `FunctionRegistry._try_technology_switch`, function_registry.py
lines 3264-3350: dispatch `fail_technology_and_switch` through the
registry (`self.execute`, line 3297 — so the state gate applies and a
`function_results` entry is appended), and on `technology_switched` set
`should_regenerate_steps`. -/
def tryTechnologySwitch (env : CreateEnv) (st : LoopSt) : LoopSt :=
  let k := st.switchCalls
  let (s1, status) := executePipeline "fail_technology_and_switch"
    (env.switchExtract k)
    (fun s => failTechnologyAndSwitch s (env.switchCaps k) (env.switch k))
    st.session
  let s2 := if status = "technology_switched" then
      { s1 with should_regenerate_steps := true }
    else s1
  { st with session := s2, switchCalls := st.switchCalls + 1 }

/-- One non-regeneration iteration of the step loop (the body at
function_registry.py lines 1057-1412 for the current step):
`CREATE_FILE` steps write the file and succeed; shell steps consult the
oracle; a failing shell step goes through `suggest_alternative_command`
(called directly, `attempt_number = 1`, line 1315), then either retries
the AI alternative, or enters a technology switch — with a `break` when
the AI recommended switching outright (line 1397), without one when the
alternative itself failed (line 1378).  An unknown recovery status
counts the step into `failed_steps` (line 1401).  Returns the updated
loop state and whether the `break` fired. -/
def createStepIter (env : CreateEnv) (step : StepData) (st : LoopSt) :
    LoopSt × Bool :=
  if step.command = "CREATE_FILE" then
    ({ st with results := st.results ++ [true] }, false)
  else
    let ok := env.runShell st.shellCalls
    let st := { st with shellCalls := st.shellCalls + 1,
                        results := st.results ++ [ok] }
    if ok then (st, false)
    else
      let (_, altStatus) :=
        suggestAlternativeCommand st.session 1 (env.alt st.altCalls)
      let st := { st with altCalls := st.altCalls + 1 }
      if altStatus = "alternative_found" then
        let altOk := env.runShell st.shellCalls
        let st := { st with shellCalls := st.shellCalls + 1 }
        if altOk then (st, false)
        else (tryTechnologySwitch env st, false)
      else if altStatus = "tech_switch_needed" ∨
          altStatus = "max_attempts_reached" ∨
          altStatus = "no_alternative" then
        (tryTechnologySwitch env st, true)
      else
        -- unknown recovery status (e.g. `error`): mark the step failed
        ({ st with failedSteps := st.failedSteps + 1 }, false)

/-- The restart list after a mid-run regeneration: the source sets
`i = -1`, so the next iteration reads `steps[-1]` — Python indexes the
*last* element — before continuing from index 0 (function_registry.py
lines 1036-1040 with the `steps[i]` read at line 994). -/
def restartPending (newSteps : List StepData) : List StepData :=
  (newSteps.getLast?.map (fun x => [x])).getD [] ++ newSteps

/-- How a run through the remaining steps (at a fixed `attempts` value)
ended: all steps processed, the switch-recovery `break` fired, a
mid-run regeneration failed (`regenerate_steps_failed`, lines
1042-1047), or a regeneration succeeded and the loop must restart with
the new list (`i = -1; attempts += 1; continue`, lines 1036-1040). -/
inductive InnerExit where
  | finished
  | broke
  | regenFailed
  | restart (newSteps : List StepData)
deriving Repr

/-- The step loop of `create_project_with_steps` at one `attempts`
value, function_registry.py lines 990-1412: at the top of each
iteration a pending technology switch triggers a regeneration
(lines 997-1055), otherwise the current step executes. -/
def createInner (env : CreateEnv) : List StepData → LoopSt →
    LoopSt × InnerExit
  | [], st => (st, InnerExit.finished)
  | step :: rest, st =>
    if st.session.should_regenerate_steps then
      let s1 := { st.session with should_regenerate_steps := false }
      let st1 := { st with session := s1, regenCalls := st.regenCalls + 1 }
      match env.regen st.regenCalls with
      | RegenOutcome.generated newSteps =>
        if newSteps.isEmpty then (st1, InnerExit.regenFailed)
        else ({ st1 with stepsLen := newSteps.length },
              InnerExit.restart newSteps)
      | RegenOutcome.failed => (st1, InnerExit.regenFailed)
    else
      match createStepIter env step st with
      | (st1, true) => (st1, InnerExit.broke)
      | (st1, false) => createInner env rest st1

/-- The `while i < len(steps) and attempts != 5` loop of
`create_project_with_steps`, function_registry.py lines 990-1412, with
`budget = 5 - attempts`: each successful regeneration consumes one unit
of budget and restarts the inner loop at `i = -1`; when the budget is
exhausted the while condition fails and the loop stops. -/
def createOuter (env : CreateEnv) : Nat → List StepData → LoopSt →
    LoopSt × LoopExit
  | 0, _, st => (st, LoopExit.finished)
  | Nat.succ budget, pending, st =>
    match createInner env pending st with
    | (st1, InnerExit.finished) => (st1, LoopExit.finished)
    | (st1, InnerExit.broke) => (st1, LoopExit.broke)
    | (st1, InnerExit.regenFailed) => (st1, LoopExit.regenFailed)
    | (st1, InnerExit.restart newSteps) =>
      createOuter env budget (restartPending newSteps) st1

/-- Summary returned by `create_project_with_steps` (the fields of the
final return dicts at function_registry.py lines 1417-1425, 1043-1047
and 1498-1514).  `attempts` is ghost instrumentation recording how many
regeneration cycles the run performed. -/
structure CreateSummary where
  status : String
  total_steps : Nat := 0
  successful_steps : Nat := 0
  failed_steps : Nat := 0
  attempts : Nat := 0
deriving DecidableEq, Repr

/-- `create_project_with_steps`, function_registry.py lines 800-1537.
Before the loop, a pending technology switch regenerates the step list
once without touching the cycle counter (lines 807-888; a failed or
empty regeneration keeps the original steps).  Afterwards the step
loop runs with the 5-cycle cap; on exit, a still-pending switch
returns `regenerate_steps_needed` (lines 1415-1425); otherwise the
completion summary is computed from `len(failed_steps)` (lines
1450-1514) — the `ai_recovery_suggested` scan at lines 1428-1448 never
fires because no result dict of this loop carries that key.
Filesystem effects (directory creation, file writes) are modelled as
succeeding. -/
def createProjectWithSteps (s : SessionState) (steps : List StepData)
    (env : CreateEnv) : SessionState × CreateSummary :=
  let (s, steps, preRegens) :=
    if s.should_regenerate_steps then
      let s1 := { s with should_regenerate_steps := false }
      match env.regen 0 with
      | RegenOutcome.generated newSteps =>
        if newSteps.isEmpty then (s1, steps, 1) else (s1, newSteps, 1)
      | RegenOutcome.failed => (s1, steps, 1)
    else (s, steps, 0)
  let st0 : LoopSt :=
    { session := s, results := [], failedSteps := 0, shellCalls := 0,
      altCalls := 0, switchCalls := 0, regenCalls := preRegens,
      stepsLen := steps.length }
  let (st, ex) := createOuter env 5 steps st0
  let cycles := st.regenCalls - preRegens
  match ex with
  | LoopExit.regenFailed =>
    (st.session, { status := "regenerate_steps_failed", attempts := cycles })
  | _ =>
    if st.session.should_regenerate_steps then
      (st.session, { status := "regenerate_steps_needed", attempts := cycles })
    else
      (st.session,
       { status := "execution_completed",
         total_steps := st.stepsLen,
         successful_steps := st.stepsLen - st.failedSteps,
         failed_steps := st.failedSteps,
         attempts := cycles })

theorem createStepIter_regenCalls (env : CreateEnv) (step : StepData)
    (st : LoopSt) :
    ((createStepIter env step st).1).regenCalls = st.regenCalls := by
  simp only [createStepIter, tryTechnologySwitch]
  split_ifs <;> simp

theorem createInner_regenCalls (env : CreateEnv) (pending : List StepData)
    (st : LoopSt) :
    ((createInner env pending st).1).regenCalls ≤ st.regenCalls + 1 := by
  induction pending generalizing st with
  | nil => simp [createInner]
  | cons step rest ih =>
    rw [createInner]
    by_cases h : st.session.should_regenerate_steps
    · simp only [h, if_true]
      cases env.regen st.regenCalls with
      | generated ns =>
        by_cases he : ns.isEmpty <;> simp [he]
      | failed => simp
    · simp only [h, Bool.false_eq_true, if_false]
      cases hit : createStepIter env step st with
      | mk st1 brk =>
        have hr : st1.regenCalls = st.regenCalls := by
          have := createStepIter_regenCalls env step st
          rw [hit] at this
          exact this
        cases brk
        · have := ih st1
          simpa [hr] using this
        · simp [hr]

theorem createOuter_regenCalls (env : CreateEnv) (budget : Nat)
    (pending : List StepData) (st : LoopSt) :
    ((createOuter env budget pending st).1).regenCalls ≤
      st.regenCalls + budget := by
  induction budget generalizing pending st with
  | zero => simp [createOuter]
  | succ b ih =>
    rw [createOuter]
    cases hin : createInner env pending st with
    | mk st1 ex =>
      have h1 : st1.regenCalls ≤ st.regenCalls + 1 := by
        have := createInner_regenCalls env pending st
        rw [hin] at this
        exact this
      cases ex with
      | finished => simpa using h1.trans (by omega)
      | broke => simpa using h1.trans (by omega)
      | regenFailed => simpa using h1.trans (by omega)
      | restart ns =>
        have := ih (restartPending ns) st1
        simp only []
        omega

theorem createOuter_regenCalls_fst (env : CreateEnv) (budget : Nat)
    (pending : List StepData) (st st1 : LoopSt) (ex : LoopExit)
    (h : createOuter env budget pending st = (st1, ex)) :
    st1.regenCalls ≤ st.regenCalls + budget := by
  have hb := createOuter_regenCalls env budget pending st
  rw [h] at hb
  exact hb

/-- **C5 (amended).**  Within one `create_project_with_steps` run, the
number of step-list regeneration cycles performed by the
`while i < len(steps) and attempts != 5` loop (function_registry.py
line 992, `attempts += 1` at line 1039) never exceeds 5, for every
oracle behaviour — forcing consecutive execution failures included;
when the cap is reached the loop stops and the run returns a terminal
result instead of regenerating further. -/
theorem createProjectWithSteps_regen_cap (s : SessionState)
    (steps : List StepData) (env : CreateEnv) :
    (createProjectWithSteps s steps env).2.attempts ≤ 5 := by
  unfold createProjectWithSteps
  by_cases h : s.should_regenerate_steps
  all_goals simp only [h, if_true, Bool.false_eq_true, if_false]
  case pos =>
    cases hr : env.regen 0 with
    | generated ns =>
      by_cases he : ns.isEmpty
      all_goals
        simp only [he, if_true, Bool.false_eq_true, if_false]
        cases hco : createOuter env 5 _ _ with
        | mk st ex =>
          have hb := createOuter_regenCalls_fst env 5 _ _ _ _ hco
          simp only at hb
          cases ex <;> split_ifs <;> simp <;> omega
    | failed =>
      cases hco : createOuter env 5 _ _ with
      | mk st ex =>
        have hb := createOuter_regenCalls_fst env 5 _ _ _ _ hco
        simp only at hb
        cases ex <;> split_ifs <;> simp <;> omega
  case neg =>
    cases hco : createOuter env 5 _ _ with
    | mk st ex =>
      have hb := createOuter_regenCalls_fst env 5 _ _ _ _ hco
      simp only at hb
      cases ex <;> split_ifs <;> simp <;> omega

/-- Forcing plan for C5: two shell steps. -/
def c5Steps : List StepData :=
  [{ command := "npx bad-a", description := "step a" },
   { command := "npx bad-b", description := "step b" }]

/-- Forcing oracle for C5: every shell command (primary and AI
alternative) fails, the AI always offers an alternative, every
technology switch succeeds with a validated recommendation, and every
regeneration returns the same two steps. -/
def c5Env : CreateEnv :=
  { runShell := fun _ => false,
    alt := fun _ => AltOutcome.alternativeFound "alt-cmd",
    switch := fun _ => SwitchOutcome.switchedValidated "python" "flask",
    switchCaps := fun _ => {},
    switchExtract := fun _ => none,
    regen := fun _ => RegenOutcome.generated c5Steps }

/-- Session in PLANNING for the C5 run. -/
def c5Session : SessionState :=
  { session_id := "s5", current_state := ConversationState.PLANNING,
    requirements := { project_type := some ProjectType.WEB_API,
                      language := some "javascript",
                      project_name := some "app",
                      folder_path := some "./app" } }

/-- **C5 (counterexample to the claim as stated).**  Forcing every
command execution to fail does stop after the 5-cycle cap
(`attempts = 5`), but the run then returns `execution_completed`
reporting 2 of 2 steps successful and 0 failed — not a terminal
failure: the switch-recovery path never appends to `failed_steps`
(function_registry.py lines 1310-1401), so the completion summary at
lines 1450-1514 reports success. -/
theorem c5_counterexample :
    (createProjectWithSteps c5Session c5Steps c5Env).2 =
      { status := "execution_completed", total_steps := 2,
        successful_steps := 2, failed_steps := 0, attempts := 5 } := by
  decide

/-- `recover_stuck_session`, function_registry.py lines 1637-1782:
if the session is stuck in INIT with a non-trivial conversation and no
requirement fields, extract requirements from the conversation history
(the deterministic text scraping at lines 1675-1728 is abstracted as
the oracle `extracted`), apply the defaults of lines 1720-1728, store
them through `update_project_requirements`, and detect capabilities if
missing. -/
def recoverStuckSession (s : SessionState) (force : Bool)
    (extracted : ReqKwargs) (probed : Option SystemCapability) :
    SessionState × String :=
  let is_stuck :=
    s.current_state = ConversationState.INIT ∧
      s.conversation_history ≠ [] ∧ 5 < s.conversation_history.length ∧
      s.requirements.project_type.isSome = false ∧
      optTruthy s.requirements.language = false ∧
      optTruthy s.requirements.project_name = false
  if ¬is_stuck ∧ ¬(force = true) then (s, "not_needed")
  else
    let kw : ReqKwargs :=
      { extracted with
        project_type := some (extracted.project_type.getD "cli"),
        language := some (extracted.language.getD "python"),
        project_name := some (extracted.project_name.getD "todo_app"),
        folder_path := some (extracted.folder_path.getD
          "/Users/muskanbansal/Desktop/ai-agent-bootstrapper/apps") }
    let s1 := (updateProjectRequirements s kw).1
    let s2 :=
      if (s1.capabilities.map (fun c => c.detection_completed)).getD false then
        s1
      else (detectSystemCapabilities s1 probed).1
    (s2, "recovered")

/-- A function call emitted by the reasoning capability: the arguments
of the registered function (function_registry.py lines 166-3262) plus
the oracle data its handler consumes.  `unknown` stands for a name
outside the registry. -/
inductive FnCall where
  | ask_user_preference (field : String) (options : List String)
      (question : String) (dflt : Option String)
  | update_project_requirements (kw : ReqKwargs)
  | plan_execution_step (step : ExecutionStep)
  | update_conversation_state (ns : ConversationState)
  | request_permission (ptype scope reason : String) (required : Bool)
  | validate_requirements
  | detect_system_capabilities (probed : Option SystemCapability)
  | validate_requirements_against_capabilities (auto_correct : Bool)
      (correctedLang : String)
  | confirm_project_creation (user_confirmed : Bool)
  | generate_execution_plan (plan : Option ExecutionPlan)
  | create_project_with_steps (steps : List StepData) (env : CreateEnv)
  | execute_project_creation (penv : PlanEnv)
  | create_project_with_steps_alias (steps : List StepData) (env : CreateEnv)
  | recover_stuck_session (force : Bool) (extracted : ReqKwargs)
      (probed : Option SystemCapability)
  | run_verification_tests (ok : Bool)
  | ai_generate_project_steps (out : RegenOutcome)
  | ai_generate_file_content (ok : Bool)
  | generate_file_content (ok : Bool)
  | suggest_alternative_command (attempt_number : Nat) (ai : AltOutcome)
  | fail_technology_and_switch (detected : SystemCapability)
      (sw : SwitchOutcome)
  | generate_project_report (ok : Bool)
  | unknown (name : String)

/-- The registered name of a call (the alias is registered as
`CreateProjectWithStepsSteps`, function_registry.py line 1587). -/
def FnCall.name : FnCall → String
  | FnCall.ask_user_preference .. => "ask_user_preference"
  | FnCall.update_project_requirements .. => "update_project_requirements"
  | FnCall.plan_execution_step .. => "plan_execution_step"
  | FnCall.update_conversation_state .. => "update_conversation_state"
  | FnCall.request_permission .. => "request_permission"
  | FnCall.validate_requirements => "validate_requirements"
  | FnCall.detect_system_capabilities .. => "detect_system_capabilities"
  | FnCall.validate_requirements_against_capabilities .. =>
      "validate_requirements_against_capabilities"
  | FnCall.confirm_project_creation .. => "confirm_project_creation"
  | FnCall.generate_execution_plan .. => "generate_execution_plan"
  | FnCall.create_project_with_steps .. => "create_project_with_steps"
  | FnCall.execute_project_creation .. => "execute_project_creation"
  | FnCall.create_project_with_steps_alias .. => "CreateProjectWithStepsSteps"
  | FnCall.recover_stuck_session .. => "recover_stuck_session"
  | FnCall.run_verification_tests .. => "run_verification_tests"
  | FnCall.ai_generate_project_steps .. => "ai_generate_project_steps"
  | FnCall.ai_generate_file_content .. => "ai_generate_file_content"
  | FnCall.generate_file_content .. => "generate_file_content"
  | FnCall.suggest_alternative_command .. => "suggest_alternative_command"
  | FnCall.fail_technology_and_switch .. => "fail_technology_and_switch"
  | FnCall.generate_project_report .. => "generate_project_report"
  | FnCall.unknown n => n

/-- Whether the call names a registered function. -/
def FnCall.registeredB : FnCall → Bool
  | FnCall.unknown _ => false
  | _ => true

/-- Dispatch to the handler bodies (the `func(session_state, websocket,
**args)` call at function_registry.py lines 109-115).  The alias
`CreateProjectWithStepsSteps` delegates directly to the
`create_project_with_steps` handler (line 1621). -/
def applyFn : FnCall → SessionState → SessionState × String
  | FnCall.ask_user_preference f o q d, s => askUserPreference s f o q d
  | FnCall.update_project_requirements kw, s => updateProjectRequirements s kw
  | FnCall.plan_execution_step step, s => planExecutionStep s step
  | FnCall.update_conversation_state ns, s => updateConversationState s ns
  | FnCall.request_permission pt sc re rq, s => requestPermission s pt sc re rq
  | FnCall.validate_requirements, s => validateRequirements s
  | FnCall.detect_system_capabilities probed, s =>
      detectSystemCapabilities s probed
  | FnCall.validate_requirements_against_capabilities ac cl, s =>
      validateRequirementsAgainstCapabilities s ac cl
  | FnCall.confirm_project_creation uc, s => confirmProjectCreation s uc
  | FnCall.generate_execution_plan plan, s => generateExecutionPlan s plan
  | FnCall.create_project_with_steps steps env, s =>
      let (s', summary) := createProjectWithSteps s steps env
      (s', summary.status)
  | FnCall.execute_project_creation penv, s => executeProjectCreation s penv
  | FnCall.create_project_with_steps_alias steps env, s =>
      let (s', summary) := createProjectWithSteps s steps env
      (s', summary.status)
  | FnCall.recover_stuck_session force ex probed, s =>
      recoverStuckSession s force ex probed
  | FnCall.run_verification_tests ok, s => runVerificationTests s ok
  | FnCall.ai_generate_project_steps out, s => aiGenerateProjectSteps s out
  | FnCall.ai_generate_file_content ok, s => generateFileContent s ok
  | FnCall.generate_file_content ok, s => generateFileContent s ok
  | FnCall.suggest_alternative_command n ai, s =>
      suggestAlternativeCommand s n ai
  | FnCall.fail_technology_and_switch det sw, s =>
      failTechnologyAndSwitch s det sw
  | FnCall.generate_project_report ok, s => generateProjectReport s ok
  | FnCall.unknown _, s => (s, "failed")

/-- A call together with the oracle data consumed by the dispatch
machinery around the handler: the AI requirement-extraction used by
`_handle_missing_requirements`, and the plan-execution outcomes for the
agent's automatic `execute_project_creation` follow-up after a
`plan_generated` status (agent.py lines 758-769). -/
structure Invocation where
  call : FnCall
  extract : Option ReqKwargs := none
  autoExecEnv : PlanEnv := fun _ => StepOutcome.completed 0 [] []

/-- `FunctionRegistry.execute`, function_registry.py lines 47-157: an
unknown name fails fast (lines 67-70); a registered one runs through
the auto-intervention / state-gate / handler / record pipeline. -/
def execute (i : Invocation) (s : SessionState) : SessionState × String :=
  match i.call with
  | FnCall.unknown _ => (s, "failed")
  | c => executePipeline c.name i.extract (applyFn c) s

/-! ### Claim C2: the state gate -/

theorem validateFunctionForState_isSome_iff (name : String)
    (s : SessionState) :
    (validateFunctionForState name s).isSome = true ↔
      (s.current_state = ConversationState.INIT ∧
        ((name = "generate_file_content" ∨
            name = "validate_requirements_against_capabilities") ∨
          (reqsTruthySet s = false ∧
            (name = "create_project_with_steps" ∨
              name = "ai_generate_project_steps" ∨
              name = "fail_technology_and_switch")))) := by
  unfold validateFunctionForState
  by_cases hin : s.current_state = ConversationState.INIT
  · simp only [hin, if_true, true_and]
    by_cases hr : reqsTruthySet s
    · simp only [hr, if_true]
      simp [initBlockedFunctions, initUnblockedWhenReqsSet]
      try tauto
    · simp only [hr, Bool.false_eq_true, if_false]
      simp [initBlockedFunctions]
      try tauto
  · simp [hin]

theorem createProjectWithSteps_status_ne_blocked (s : SessionState)
    (steps : List StepData) (env : CreateEnv) :
    (createProjectWithSteps s steps env).2.status ≠
      "blocked_by_state_machine" := by
  unfold createProjectWithSteps
  by_cases h : s.should_regenerate_steps
  all_goals simp only [h, if_true, Bool.false_eq_true, if_false]
  case pos =>
    cases hr : env.regen 0 with
    | generated ns =>
      by_cases he : ns.isEmpty
      all_goals
        simp only [he, if_true, Bool.false_eq_true, if_false]
        cases hco : createOuter env 5 _ _ with
        | mk st ex => cases ex <;> split_ifs <;> simp
    | failed =>
      cases hco : createOuter env 5 _ _ with
      | mk st ex => cases ex <;> split_ifs <;> simp
  case neg =>
    cases hco : createOuter env 5 _ _ with
    | mk st ex => cases ex <;> split_ifs <;> simp

theorem applyFn_status_ne_blocked (c : FnCall) (s : SessionState) :
    (applyFn c s).2 ≠ "blocked_by_state_machine" := by
  cases c with
  | ask_user_preference f o q d => simp [applyFn, askUserPreference]
  | update_project_requirements kw => simp [applyFn, updateProjectRequirements]
  | plan_execution_step step => simp [applyFn, planExecutionStep]
  | update_conversation_state ns => simp [applyFn, updateConversationState]
  | request_permission pt sc re rq => simp [applyFn, requestPermission]
  | validate_requirements => simp [applyFn, validateRequirements]
  | detect_system_capabilities probed =>
    cases probed <;> simp [applyFn, detectSystemCapabilities]
  | validate_requirements_against_capabilities ac cl =>
    cases hc : s.capabilities <;>
      simp [applyFn, validateRequirementsAgainstCapabilities, hc]
  | confirm_project_creation uc =>
    cases uc <;> simp [applyFn, confirmProjectCreation]
  | generate_execution_plan plan =>
    cases hc : s.capabilities <;> cases plan <;>
      simp [applyFn, generateExecutionPlan, hc]
  | create_project_with_steps steps env =>
    have h := createProjectWithSteps_status_ne_blocked s steps env
    simpa [applyFn] using h
  | execute_project_creation penv =>
    cases hp : s.execution_plan <;>
      simp [applyFn, executeProjectCreation, hp]
  | create_project_with_steps_alias steps env =>
    have h := createProjectWithSteps_status_ne_blocked s steps env
    simpa [applyFn] using h
  | recover_stuck_session force ex probed =>
    simp only [applyFn, recoverStuckSession]
    split <;> simp
  | run_verification_tests ok =>
    cases hc : s.capabilities <;> cases ok <;>
      simp [applyFn, runVerificationTests, hc]
  | ai_generate_project_steps out =>
    cases out <;> simp [applyFn, aiGenerateProjectSteps]
  | ai_generate_file_content ok =>
    cases ok <;> simp [applyFn, generateFileContent]
  | generate_file_content ok =>
    cases ok <;> simp [applyFn, generateFileContent]
  | suggest_alternative_command n ai =>
    by_cases hn : 2 < n <;>
      simp [applyFn, suggestAlternativeCommand, hn] <;>
      cases ai <;> simp
  | fail_technology_and_switch det sw =>
    cases sw <;> simp [applyFn, failTechnologyAndSwitch]
  | generate_project_report ok =>
    cases ok <;> simp [applyFn, generateProjectReport]
  | unknown n => simp [applyFn]

theorem execute_eq_pipeline (i : Invocation) (s : SessionState)
    (hreg : i.call.registeredB = true) :
    execute i s = executePipeline i.call.name i.extract (applyFn i.call) s := by
  cases i with
  | mk c extract autoExecEnv =>
    cases c <;> first
      | rfl
      | exact absurd hreg (by simp [FnCall.registeredB])

/-- **C2 (amended).**  Dispatch rejects an invocation with status
`blocked_by_state_machine` — handler not run, no side effects beyond
the INIT auto-extraction step — exactly when, after that auto-extraction
step, the session is still in INIT and the function is on INIT's
block-list (`generate_file_content` and
`validate_requirements_against_capabilities` always;
`create_project_with_steps`, `ai_generate_project_steps` and
`fail_technology_and_switch` only while project type, language and name
are not all set).  In every other state, and for every other function,
the state gate imposes no restriction and the handler runs. -/
theorem execute_state_gate (i : Invocation) (s : SessionState)
    (hreg : i.call.registeredB = true) :
    ((execute i s).2 = "blocked_by_state_machine" ↔
      ((handleMissingRequirements i.call.name i.extract s).1.current_state =
          ConversationState.INIT ∧
        ((i.call.name = "generate_file_content" ∨
            i.call.name = "validate_requirements_against_capabilities") ∨
          (reqsTruthySet
              (handleMissingRequirements i.call.name i.extract s).1 = false ∧
            (i.call.name = "create_project_with_steps" ∨
              i.call.name = "ai_generate_project_steps" ∨
              i.call.name = "fail_technology_and_switch"))))) ∧
    ((execute i s).2 = "blocked_by_state_machine" →
      (execute i s).1 =
        (handleMissingRequirements i.call.name i.extract s).1) := by
  rw [execute_eq_pipeline i s hreg]
  simp only [executePipeline]
  cases hv : validateFunctionForState i.call.name
      (handleMissingRequirements i.call.name i.extract s).1 with
  | some msg =>
    refine ⟨⟨fun _ => ?_, fun _ => rfl⟩, fun _ => rfl⟩
    exact (validateFunctionForState_isSome_iff i.call.name _).mp
      (by simp [hv])
  | none =>
    have hiff := validateFunctionForState_isSome_iff i.call.name
      (handleMissingRequirements i.call.name i.extract s).1
    rw [hv] at hiff
    simp only [Option.isSome_none, Bool.false_eq_true, false_iff] at hiff
    have hne := applyFn_status_ne_blocked i.call
      (handleMissingRequirements i.call.name i.extract s).1
    cases happ : applyFn i.call
        (handleMissingRequirements i.call.name i.extract s).1 with
    | mk s2 status =>
      rw [happ] at hne
      simp only at hne
      refine ⟨⟨fun hblk => ?_, fun hcond => absurd hcond hiff⟩,
        fun hblk => ?_⟩ <;>
      · simp only at hblk
        exact absurd hblk hne

/-- Session in PLANNING for the C2 counterexample. -/
def c2Session : SessionState :=
  { session_id := "s2", current_state := ConversationState.PLANNING }

/-- The invocation used in the C2 counterexample. -/
def c2Invocation : Invocation :=
  { call := FnCall.request_permission "global" "system_info"
      "read system info" true }

/-- **C2 (counterexample to the claim as stated).**  In state PLANNING
the exposed allow-list is `[ai_generate_project_steps,
create_project_with_steps]`; invoking `request_permission` — not on
that list — is nevertheless dispatched: the handler runs (a pending
permission question appears as a side effect) and the returned status
is `permission_requested`, not `blocked_by_state_machine`. -/
theorem c2_counterexample :
    ("request_permission" ∉
        allowedFunctionsForState ConversationState.PLANNING) ∧
      (execute c2Invocation c2Session).2 = "permission_requested" ∧
      (execute c2Invocation c2Session).1.pending_question.isSome = true := by
  decide

/-- Witness for the amended C2 theorem at a concrete blocked call:
`generate_file_content` in a fresh INIT session. -/
def c2wSession : SessionState := { session_id := "w2" }

/-- The blocked invocation for the C2 witness. -/
def c2wInvocation : Invocation :=
  { call := FnCall.generate_file_content true }

/-- Witness for C2 (amended): the instantiated characterization. -/
theorem c2_witness :
    ((execute c2wInvocation c2wSession).2 = "blocked_by_state_machine" ↔
      ((handleMissingRequirements c2wInvocation.call.name
            c2wInvocation.extract c2wSession).1.current_state =
          ConversationState.INIT ∧
        ((c2wInvocation.call.name = "generate_file_content" ∨
            c2wInvocation.call.name =
              "validate_requirements_against_capabilities") ∨
          (reqsTruthySet
              (handleMissingRequirements c2wInvocation.call.name
                c2wInvocation.extract c2wSession).1 = false ∧
            (c2wInvocation.call.name = "create_project_with_steps" ∨
              c2wInvocation.call.name = "ai_generate_project_steps" ∨
              c2wInvocation.call.name = "fail_technology_and_switch"))))) ∧
    ((execute c2wInvocation c2wSession).2 = "blocked_by_state_machine" →
      (execute c2wInvocation c2wSession).1 =
        (handleMissingRequirements c2wInvocation.call.name
          c2wInvocation.extract c2wSession).1) :=
  execute_state_gate c2wInvocation c2wSession (by decide)

/-! ## Orchestrator (`backend/core/agent.py`) -/

/-- The affirmative tokens accepted for a permission answer,
agent.py line 434. -/
def affirmativeTokens : List String :=
  ["yes", "y", "ok", "allow", "grant", "approve"]

/-- Assistant message texts (wording abbreviated: the punctuation and
emoji of the source f-strings are immaterial to every claim). -/
def choiceAcceptedMsg (field : String) : String :=
  "Great! I have noted your choice for " ++ field

/-- Re-prompt text for an invalid choice answer (agent.py line 415). -/
def choiceInvalidMsg (input : String) (options : List String) : String :=
  "I did not understand " ++ input ++ ". Please choose from: " ++
    String.intercalate ", " options

/-- Grant acknowledgement text (agent.py line 450). -/
def permissionGrantedMsg (scope : String) : String :=
  "Permission granted for " ++ scope ++ ". Thank you!"

/-- Denial acknowledgement text (agent.py line 516). -/
def permissionDeniedMsg : String :=
  "Permission denied. I will work with the available permissions."

/-- Error text added when the chunk loop raises (agent.py line 913). -/
def geminiErrorMsg : String :=
  "I encountered an error. Let me try to help you differently."

/-- The `setattr(session_state.requirements, field, selected_option)`
of a valid choice answer, agent.py lines 381-386: `project_type` goes
through the agent's `_map_project_type_string`; only the string-valued
requirement fields are modelled (`hasattr` is false for other names,
and choice questions never target the boolean fields). -/
def setRequirementField (s : SessionState) (field value : String) :
    SessionState :=
  let req := s.requirements
  let req :=
    if field = "project_type" then
      { req with project_type := some (mapProjectTypeWith agentProjectTypeMappings value) }
    else if field = "language" then { req with language := some value }
    else if field = "framework" then { req with framework := some value }
    else if field = "project_name" then { req with project_name := some value }
    else if field = "folder_path" then { req with folder_path := some value }
    else if field = "database" then { req with database := some value }
    else req
  { s with requirements := req }

/-- `ConversationAgent._handle_user_response`, agent.py lines 348-534.
Choice questions match case-insensitively, exact or substring (lines
370-377); a match stores the field, acknowledges, and clears the
question; a mismatch re-prompts and returns invalid without clearing.
Permission questions treat the affirmative tokens as a grant (recording
the permission and then auto-detecting capabilities directly through
the `detect_system_capabilities` handler, lines 436-511 — `autoDetect`
is that probe's outcome) and anything else as a denial; both clear the
question and count as valid. -/
def handleUserResponse (s : SessionState) (input : String)
    (autoDetect : Option SystemCapability) : SessionState × Bool :=
  match s.pending_question with
  | none => (s, true)
  | some (PendingQuestion.choice field options _q _d) =>
    let userLower := pyStrip (pyLower input)
    match options.find? (fun opt =>
        pyLower opt = userLower || pyIn userLower (pyLower opt)) with
    | some opt =>
      let s := setRequirementField s field opt
      let s := s.add_message "assistant" (choiceAcceptedMsg field)
      ({ s with pending_question := none }, true)
    | none =>
      (s.add_message "assistant" (choiceInvalidMsg input options), false)
  | some (PendingQuestion.permission ptype scope _r _req _qt) =>
    if (pyStrip (pyLower input)) ∈ affirmativeTokens then
      let newPerm : Permission := { type := ptype, scope := scope, granted := true }
      let s := { s with permissions := permInsert s.permissions scope newPerm }
      let s := s.add_message "assistant" (permissionGrantedMsg scope)
      let s := (detectSystemCapabilities s autoDetect).1
      ({ s with pending_question := none }, true)
    else
      let s := s.add_message "assistant" permissionDeniedMsg
      ({ s with pending_question := none }, true)

/-- The advancement statuses, agent.py lines 160-170. -/
def advancementStatuses : List String :=
  ["completed", "capabilities_detected", "capabilities_already_detected",
   "requirements_updated", "updated", "validation_complete", "confirmed",
   "plan_generated", "ai_recovery_needed"]

/-- The blocking statuses, agent.py lines 173-181. -/
def blockingStatuses : List String :=
  ["waiting_for_user", "permission_requested", "error", "failed",
   "needs_retry", "executing", "validating"]

/-- `ConversationAgent._should_advance_workflow`, agent.py lines
141-264, as a partial predicate: `none` models the `AttributeError`
raised at line 188 (`perm.get` on a pydantic `Permission` object) when
the permission special case inspects a non-empty permissions map; it is
caught by the turn-level handler.  Registry-appended entries carry no
`status` key, so their status is `None` and falls into the final
unknown branch. -/
def shouldAdvanceWorkflow (s : SessionState) : Option Bool :=
  if s.waiting_for_user || s.pending_question.isSome then some false
  else
    match s.function_results.getLast? with
    | none => some true
    | some last =>
      if last.status = some "permission_requested" ∧
          last.name = "request_permission" ∧
          s.current_state = ConversationState.INIT then
        if s.permissions.isEmpty then some false else none
      else if (match last.status with
          | some st => decide (st ∈ blockingStatuses)
          | none => false) then some false
      else if (match last.status with
          | some st => decide (st ∈ advancementStatuses)
          | none => false) then
        match s.current_state with
        | ConversationState.INIT => some (!s.permissions.isEmpty)
        | ConversationState.CHECK_SYSTEM_CAPABILITIES =>
            some s.capabilities.isSome
        | ConversationState.ASK_PROJECT_TYPE =>
            some s.requirements.project_type.isSome
        | ConversationState.ASK_PROJECT_NAME_FOLDER =>
            some s.requirements.project_type.isSome
        | ConversationState.ASK_ADDITIONAL_DETAILS =>
            some s.requirements.project_type.isSome
        | ConversationState.PLANNING => some s.execution_plan.isSome
        | _ => some true
      else some false

/-- `SessionManager.save_state` as invoked by the agent (agent.py line
904, session_manager.py lines 126-158): bump the document version (the
wall-clock `updated_at` stamp is not tracked). -/
def saveStateBump (s : SessionState) : SessionState :=
  { s with state_version := s.state_version + 1 }

/-- One event of the reasoning capability's stream, as consumed by the
chunk loop at agent.py lines 570-907. -/
inductive GeminiEvent where
  | text (content : String)
  | functionCall (inv : Invocation)
  | finish

/-- One function-call chunk of `_process_with_gemini`, agent.py lines
589-833: dispatch through the registry; a
`waiting_for_user`/`permission_requested` status raises the waiting
flag and breaks out of the chunk loop (returned flag `true`) — skipping
the agent-side `function_results` append (lines 612-632); other
statuses run their specific handling (lines 634-820), then the agent
appends its own `{name, status}` entry and pops the front when the
list exceeds 10 (lines 822-833). -/
def fcStep (inv : Invocation) (s : SessionState) : SessionState × Bool :=
  let es := execute inv s
  if es.2 = "waiting_for_user" ∨ es.2 = "permission_requested" then
    ({ es.1 with waiting_for_user := true }, true)
  else
    let s2 :=
      if es.2 = "capabilities_detected" ∨
          es.2 = "capabilities_already_detected" then
        { es.1 with capabilities_detected := true }
      else if es.2 = "execution_completed" then
        es.1.update_state ConversationState.COMPLETED
      else if es.2 = "plan_generated" then
        (execute ({ call := FnCall.execute_project_creation inv.autoExecEnv } : Invocation) es.1).1
      else es.1
    let entry : FnResultEntry := { name := inv.call.name, status := some es.2 }
    let s3 : SessionState := { s2 with function_results := s2.function_results ++ [entry] }
    let s4 :=
      if 10 < s3.function_results.length then
        { s3 with function_results := s3.function_results.drop 1 }
      else s3
    (s4, false)

/-- The post-stream processing of `_process_with_gemini`, agent.py
lines 836-907: add the accumulated reply, ask
`_should_advance_workflow`, auto-transition when allowed, bump the
iteration counter; the returned flag is whether the state changed and
the agent saves and recurses into another stream. -/
def finishStep (s : SessionState) (acc : String) : SessionState × Bool :=
  let s1 := if pyStrip acc ≠ "" then s.add_message "assistant" acc else s
  match shouldAdvanceWorkflow s1 with
  | none => (s1.add_message "assistant" geminiErrorMsg, false)
  | some should =>
    let old := s1.current_state
    let s2 := if should then (autoTransition s1).getD s1 else s1
    let changed := old ≠ s2.current_state
    let s3 := { s2 with iteration_count := s2.iteration_count + 1 }
    if should ∧ changed then (saveStateBump s3, true) else (s3, false)

/-- Result of one reasoning stream: the session at the end of the
chunk loop, tagged `next` when the finish processing decided to save
and recurse into another stream (agent.py lines 893-907). -/
inductive StreamExit where
  | done (s : SessionState)
  | next (s : SessionState)

/-- The session carried by a stream exit. -/
def StreamExit.state : StreamExit → SessionState
  | StreamExit.done s => s
  | StreamExit.next s => s

/-- The chunk loop of `_process_with_gemini` over one stream, agent.py
lines 568-920.  Text chunks accumulate (line 584); a function call runs
`fcStep` and a raised flag breaks out; the finish event runs
`finishStep` and reports whether the agent recurses into the next
stream. -/
def runStream : List GeminiEvent → SessionState → String → StreamExit
  | [], s, _ => StreamExit.done s
  | GeminiEvent.text c :: rest, s, acc => runStream rest s (acc ++ c)
  | GeminiEvent.functionCall inv :: rest, s, acc =>
    let fs := fcStep inv s
    if fs.2 then StreamExit.done fs.1
    else runStream rest fs.1 acc
  | GeminiEvent.finish :: _, s, acc =>
    let fs := finishStep s acc
    if fs.2 then StreamExit.next fs.1 else StreamExit.done fs.1

/-- The recursion of `_process_with_gemini` into further streams
(agent.py lines 893-907): each `next` exit consumes the next stream of
`scripts`; an exhausted list stands for a stream with no events. -/
def runScripts : List (List GeminiEvent) → StreamExit → SessionState
  | _, StreamExit.done s => s
  | [], StreamExit.next s => s
  | sc :: rest, StreamExit.next s => runScripts rest (runStream sc s "")

/-- One stream followed by the recursive turns it triggers. -/
def runEvents (events : List GeminiEvent)
    (scripts : List (List GeminiEvent)) (s : SessionState) (acc : String) :
    SessionState :=
  runScripts scripts (runStream events s acc)

/-- `_process_with_gemini` entry (agent.py lines 536-568): run the next
stream; an empty scripts list models the configuration-error/no-events
path, which leaves the session unchanged. -/
def processWithGemini (scripts : List (List GeminiEvent))
    (s : SessionState) : SessionState :=
  match scripts with
  | [] => s
  | sc :: rest => runEvents sc rest s ""

/-- `ConversationAgent.process_conversation`, agent.py lines 295-346:
append the user message; with a pending question validate the reply —
when valid and the session was waiting, clear the waiting flag; in
every case (including an invalid reply) fall through to the reasoning
capability. -/
def processConversation (input : String)
    (autoDetect : Option SystemCapability)
    (scripts : List (List GeminiEvent)) (s : SessionState) : SessionState :=
  let s1 := s.add_message "user" input
  match s1.pending_question with
  | some _ =>
    let hr := handleUserResponse s1 input autoDetect
    if hr.2 ∧ hr.1.waiting_for_user then
      processWithGemini scripts { hr.1 with waiting_for_user := false }
    else
      processWithGemini scripts hr.1
  | none => processWithGemini scripts s1

/-! ### Claim C1: the waiting/pending invariant -/

/-- The session invariant of the spec: the waiting flag is raised
exactly when a pending question exists. -/
def WaitingInvariant (s : SessionState) : Prop :=
  s.waiting_for_user = s.pending_question.isSome

theorem pw_updateProjectRequirements (s : SessionState) (kw : ReqKwargs) :
    (updateProjectRequirements s kw).1.pending_question = s.pending_question ∧
      (updateProjectRequirements s kw).1.waiting_for_user =
        s.waiting_for_user :=
  ⟨rfl, rfl⟩

theorem pw_handleMissingRequirements (name : String)
    (extract : Option ReqKwargs) (s : SessionState) :
    (handleMissingRequirements name extract s).1.pending_question =
        s.pending_question ∧
      (handleMissingRequirements name extract s).1.waiting_for_user =
        s.waiting_for_user := by
  unfold handleMissingRequirements
  split_ifs <;> try exact ⟨rfl, rfl⟩
  cases extract with
  | none => exact ⟨rfl, rfl⟩
  | some kw =>
    simp only []
    split_ifs <;> exact ⟨rfl, rfl⟩

theorem pw_failTechnologyAndSwitch (s : SessionState)
    (det : SystemCapability) (sw : SwitchOutcome) :
    (failTechnologyAndSwitch s det sw).1.pending_question =
        s.pending_question ∧
      (failTechnologyAndSwitch s det sw).1.waiting_for_user =
        s.waiting_for_user := by
  unfold failTechnologyAndSwitch resetExecutionState
  cases sw <;> split_ifs <;> exact ⟨rfl, rfl⟩

theorem pw_executePipeline (name : String) (extract : Option ReqKwargs)
    (handler : SessionState → SessionState × String) (s : SessionState)
    (hh : ∀ s', (handler s').1.pending_question = s'.pending_question ∧
      (handler s').1.waiting_for_user = s'.waiting_for_user) :
    (executePipeline name extract handler s).1.pending_question =
        s.pending_question ∧
      (executePipeline name extract handler s).1.waiting_for_user =
        s.waiting_for_user := by
  simp only [executePipeline]
  cases hv : validateFunctionForState name
      (handleMissingRequirements name extract s).1 with
  | some msg => exact pw_handleMissingRequirements name extract s
  | none =>
    have h1 := pw_handleMissingRequirements name extract s
    have h2 := hh (handleMissingRequirements name extract s).1
    cases happ : handler (handleMissingRequirements name extract s).1 with
    | mk s2 status =>
      rw [happ] at h2
      simp only at h2 ⊢
      exact ⟨h2.1.trans h1.1, h2.2.trans h1.2⟩

theorem pw_tryTechnologySwitch (env : CreateEnv) (st : LoopSt) :
    (tryTechnologySwitch env st).session.pending_question =
        st.session.pending_question ∧
      (tryTechnologySwitch env st).session.waiting_for_user =
        st.session.waiting_for_user := by
  simp only [tryTechnologySwitch]
  have h := pw_executePipeline "fail_technology_and_switch"
    (env.switchExtract st.switchCalls)
    (fun s => failTechnologyAndSwitch s (env.switchCaps st.switchCalls)
      (env.switch st.switchCalls)) st.session
    (fun s' => pw_failTechnologyAndSwitch s' (env.switchCaps st.switchCalls)
      (env.switch st.switchCalls))
  cases hp : executePipeline "fail_technology_and_switch"
      (env.switchExtract st.switchCalls)
      (fun s => failTechnologyAndSwitch s (env.switchCaps st.switchCalls)
        (env.switch st.switchCalls)) st.session with
  | mk s1 status =>
    rw [hp] at h
    simp only at h ⊢
    split_ifs <;> exact ⟨h.1, h.2⟩

theorem pw_createStepIter (env : CreateEnv) (step : StepData) (st : LoopSt) :
    ((createStepIter env step st).1).session.pending_question =
        st.session.pending_question ∧
      ((createStepIter env step st).1).session.waiting_for_user =
        st.session.waiting_for_user := by
  simp only [createStepIter]
  split_ifs <;> first
    | exact ⟨rfl, rfl⟩
    | exact pw_tryTechnologySwitch env _

theorem pw_createInner (env : CreateEnv) (pending : List StepData)
    (st : LoopSt) :
    ((createInner env pending st).1).session.pending_question =
        st.session.pending_question ∧
      ((createInner env pending st).1).session.waiting_for_user =
        st.session.waiting_for_user := by
  induction pending generalizing st with
  | nil => exact ⟨rfl, rfl⟩
  | cons step rest ih =>
    rw [createInner]
    by_cases h : st.session.should_regenerate_steps
    · simp only [h, if_true]
      cases env.regen st.regenCalls with
      | generated ns => by_cases he : ns.isEmpty <;> simp [he]
      | failed => exact ⟨rfl, rfl⟩
    · simp only [h, Bool.false_eq_true, if_false]
      cases hit : createStepIter env step st with
      | mk st1 brk =>
        have hpw := pw_createStepIter env step st
        rw [hit] at hpw
        simp only at hpw
        cases brk
        · have := ih st1
          exact ⟨this.1.trans hpw.1, this.2.trans hpw.2⟩
        · exact hpw

theorem pw_createOuter (env : CreateEnv) (budget : Nat)
    (pending : List StepData) (st : LoopSt) :
    ((createOuter env budget pending st).1).session.pending_question =
        st.session.pending_question ∧
      ((createOuter env budget pending st).1).session.waiting_for_user =
        st.session.waiting_for_user := by
  induction budget generalizing pending st with
  | zero => exact ⟨rfl, rfl⟩
  | succ b ih =>
    rw [createOuter]
    cases hin : createInner env pending st with
    | mk st1 ex =>
      have h1 := pw_createInner env pending st
      rw [hin] at h1
      simp only at h1
      cases ex with
      | finished => exact h1
      | broke => exact h1
      | regenFailed => exact h1
      | restart ns =>
        have h2 := ih (restartPending ns) st1
        exact ⟨h2.1.trans h1.1, h2.2.trans h1.2⟩

theorem pw_createOuter_fst (env : CreateEnv) (budget : Nat)
    (pending : List StepData) (st st1 : LoopSt) (ex : LoopExit)
    (h : createOuter env budget pending st = (st1, ex)) :
    st1.session.pending_question = st.session.pending_question ∧
      st1.session.waiting_for_user = st.session.waiting_for_user := by
  have hp := pw_createOuter env budget pending st
  rw [h] at hp
  exact hp

theorem pw_createProjectWithSteps (s : SessionState) (steps : List StepData)
    (env : CreateEnv) :
    (createProjectWithSteps s steps env).1.pending_question =
        s.pending_question ∧
      (createProjectWithSteps s steps env).1.waiting_for_user =
        s.waiting_for_user := by
  unfold createProjectWithSteps
  by_cases h : s.should_regenerate_steps
  all_goals simp only [h, if_true, Bool.false_eq_true, if_false]
  case pos =>
    cases hr : env.regen 0 with
    | generated ns =>
      by_cases he : ns.isEmpty
      all_goals
        simp only [he, if_true, Bool.false_eq_true, if_false]
        cases hco : createOuter env 5 _ _ with
        | mk st ex =>
          have h1 := pw_createOuter_fst env 5 _ _ _ _ hco
          simp only at h1
          cases ex <;> split_ifs <;> exact h1
    | failed =>
      cases hco : createOuter env 5 _ _ with
      | mk st ex =>
        have h1 := pw_createOuter_fst env 5 _ _ _ _ hco
        simp only at h1
        cases ex <;> split_ifs <;> exact h1
  case neg =>
    cases hco : createOuter env 5 _ _ with
    | mk st ex =>
      have h1 := pw_createOuter_fst env 5 _ _ _ _ hco
      simp only at h1
      cases ex <;> split_ifs <;> exact h1

theorem pw_autoTransitionGetD (s : SessionState) :
    ((autoTransition s).getD s).pending_question = s.pending_question ∧
      ((autoTransition s).getD s).waiting_for_user = s.waiting_for_user := by
  unfold autoTransition
  cases transitionTable.find? (fun t => t.can_transition s) <;>
    simp [SessionState.update_state]

theorem pw_vracCorrectLanguage (s : SessionState) (caps : SystemCapability)
    (ac : Bool) (cl : String) :
    (vracCorrectLanguage s caps ac cl).pending_question =
        s.pending_question ∧
      (vracCorrectLanguage s caps ac cl).waiting_for_user =
        s.waiting_for_user := by
  cases hl : s.requirements.language with
  | none => simp [vracCorrectLanguage, hl]
  | some lang =>
    simp only [vracCorrectLanguage, hl]
    split_ifs <;> exact ⟨rfl, rfl⟩

theorem pw_validateReqCaps (s : SessionState) (ac : Bool) (cl : String) :
    (validateRequirementsAgainstCapabilities s ac cl).1.pending_question =
        s.pending_question ∧
      (validateRequirementsAgainstCapabilities s ac cl).1.waiting_for_user =
        s.waiting_for_user := by
  unfold validateRequirementsAgainstCapabilities
  cases hc : s.capabilities with
  | none => exact ⟨rfl, rfl⟩
  | some caps =>
    have h1 := pw_vracCorrectLanguage s caps ac cl
    have h2 := pw_autoTransitionGetD
      { vracCorrectLanguage s caps ac cl with validation_completed := true }
    exact ⟨h2.1.trans h1.1, h2.2.trans h1.2⟩

theorem createProjectWithSteps_status_mem (s : SessionState)
    (steps : List StepData) (env : CreateEnv) :
    (createProjectWithSteps s steps env).2.status =
        "regenerate_steps_failed" ∨
      (createProjectWithSteps s steps env).2.status =
        "regenerate_steps_needed" ∨
      (createProjectWithSteps s steps env).2.status =
        "execution_completed" := by
  unfold createProjectWithSteps
  by_cases h : s.should_regenerate_steps
  all_goals simp only [h, if_true, Bool.false_eq_true, if_false]
  case pos =>
    cases hr : env.regen 0 with
    | generated ns =>
      by_cases he : ns.isEmpty
      all_goals
        simp only [he, if_true, Bool.false_eq_true, if_false]
        cases hco : createOuter env 5 _ _ with
        | mk st ex => cases ex <;> split_ifs <;> simp
    | failed =>
      cases hco : createOuter env 5 _ _ with
      | mk st ex => cases ex <;> split_ifs <;> simp
  case neg =>
    cases hco : createOuter env 5 _ _ with
    | mk st ex => cases ex <;> split_ifs <;> simp

theorem applyFn_wizard (c : FnCall) (s : SessionState) :
    ((applyFn c s).1.pending_question = s.pending_question ∧
      (applyFn c s).1.waiting_for_user = s.waiting_for_user ∧
      (applyFn c s).2 ≠ "waiting_for_user" ∧
      (applyFn c s).2 ≠ "permission_requested") ∨
    ((applyFn c s).1.pending_question.isSome = true ∧
      (applyFn c s).1.waiting_for_user = true) := by
  cases c with
  | ask_user_preference f o q d => right; exact ⟨rfl, rfl⟩
  | request_permission pt sc re rq => right; exact ⟨rfl, rfl⟩
  | update_project_requirements kw =>
    left; refine ⟨rfl, rfl, ?_, ?_⟩ <;>
      simp [applyFn, updateProjectRequirements]
  | plan_execution_step step =>
    left; refine ⟨rfl, rfl, ?_, ?_⟩ <;> simp [applyFn, planExecutionStep]
  | update_conversation_state ns =>
    left; refine ⟨rfl, rfl, ?_, ?_⟩ <;>
      simp [applyFn, updateConversationState]
  | validate_requirements =>
    left; refine ⟨rfl, rfl, ?_, ?_⟩ <;> simp [applyFn, validateRequirements]
  | detect_system_capabilities probed =>
    left; cases probed <;> simp [applyFn, detectSystemCapabilities]
  | validate_requirements_against_capabilities ac cl =>
    left
    have hpw := pw_validateReqCaps s ac cl
    refine ⟨hpw.1, hpw.2, ?_, ?_⟩ <;>
      cases hc : s.capabilities <;>
        simp [applyFn, validateRequirementsAgainstCapabilities, hc]
  | confirm_project_creation uc =>
    left; cases uc <;>
      simp [applyFn, confirmProjectCreation, SessionState.update_state]
  | generate_execution_plan plan =>
    left; cases hc : s.capabilities <;> cases plan <;>
      simp [applyFn, generateExecutionPlan, hc]
  | create_project_with_steps steps env =>
    left
    have hpw := pw_createProjectWithSteps s steps env
    have hmem := createProjectWithSteps_status_mem s steps env
    simp only [applyFn]
    cases hcr : createProjectWithSteps s steps env with
    | mk s' summary =>
      rw [hcr] at hpw hmem
      simp only at hpw hmem ⊢
      rcases hmem with h | h | h <;> simp [h, hpw.1, hpw.2]
  | execute_project_creation penv =>
    left; cases hp : s.execution_plan <;>
      simp [applyFn, executeProjectCreation, hp]
  | create_project_with_steps_alias steps env =>
    left
    have hpw := pw_createProjectWithSteps s steps env
    have hmem := createProjectWithSteps_status_mem s steps env
    simp only [applyFn]
    cases hcr : createProjectWithSteps s steps env with
    | mk s' summary =>
      rw [hcr] at hpw hmem
      simp only at hpw hmem ⊢
      rcases hmem with h | h | h <;> simp [h, hpw.1, hpw.2]
  | recover_stuck_session force ex probed =>
    left
    simp only [applyFn, recoverStuckSession]
    split
    · simp
    · cases probed <;> split_ifs <;>
        simp [detectSystemCapabilities, updateProjectRequirements]
  | run_verification_tests ok =>
    left; cases hc : s.capabilities <;> cases ok <;>
      simp [applyFn, runVerificationTests, hc]
  | ai_generate_project_steps out =>
    left; cases out <;> simp [applyFn, aiGenerateProjectSteps]
  | ai_generate_file_content ok =>
    left; cases ok <;> simp [applyFn, generateFileContent]
  | generate_file_content ok =>
    left; cases ok <;> simp [applyFn, generateFileContent]
  | suggest_alternative_command n ai =>
    left
    by_cases hn : 2 < n <;>
      simp [applyFn, suggestAlternativeCommand, hn] <;>
      cases ai <;> simp
  | fail_technology_and_switch det sw =>
    left
    have hpw := pw_failTechnologyAndSwitch s det sw
    refine ⟨hpw.1, hpw.2, ?_, ?_⟩ <;>
      cases sw <;> simp [applyFn, failTechnologyAndSwitch]
  | generate_project_report ok =>
    left; cases ok <;> simp [applyFn, generateProjectReport]
  | unknown n => left; refine ⟨rfl, rfl, ?_, ?_⟩ <;> simp [applyFn]

theorem pw_executeProjectCreation (s : SessionState) (env : PlanEnv) :
    (executeProjectCreation s env).1.pending_question = s.pending_question ∧
      (executeProjectCreation s env).1.waiting_for_user =
        s.waiting_for_user := by
  cases hp : s.execution_plan <;> simp [executeProjectCreation, hp]

theorem executePipeline_dichotomy (c : FnCall) (extract : Option ReqKwargs)
    (s : SessionState) :
    ((executePipeline c.name extract (applyFn c) s).1.pending_question =
          s.pending_question ∧
        (executePipeline c.name extract (applyFn c) s).1.waiting_for_user =
          s.waiting_for_user ∧
        (executePipeline c.name extract (applyFn c) s).2 ≠
          "waiting_for_user" ∧
        (executePipeline c.name extract (applyFn c) s).2 ≠
          "permission_requested") ∨
      ((executePipeline c.name extract (applyFn c) s).1.pending_question.isSome
          = true ∧
        (executePipeline c.name extract (applyFn c) s).1.waiting_for_user =
          true) := by
  simp only [executePipeline]
  cases hv : validateFunctionForState c.name
      (handleMissingRequirements c.name extract s).1 with
  | some msg =>
    left
    have h1 := pw_handleMissingRequirements c.name extract s
    exact ⟨h1.1, h1.2, by simp, by simp⟩
  | none =>
    have h1 := pw_handleMissingRequirements c.name extract s
    have h2 := applyFn_wizard c (handleMissingRequirements c.name extract s).1
    cases happ : applyFn c (handleMissingRequirements c.name extract s).1 with
    | mk s2 status =>
      rw [happ] at h2
      simp only at h2 ⊢
      rcases h2 with ⟨ha, hb, hc, hd⟩ | ⟨ha, hb⟩
      · left; exact ⟨ha.trans h1.1, hb.trans h1.2, hc, hd⟩
      · right; exact ⟨ha, hb⟩

theorem execute_dichotomy (i : Invocation) (s : SessionState) :
    ((execute i s).1.pending_question = s.pending_question ∧
        (execute i s).1.waiting_for_user = s.waiting_for_user ∧
        (execute i s).2 ≠ "waiting_for_user" ∧
        (execute i s).2 ≠ "permission_requested") ∨
      ((execute i s).1.pending_question.isSome = true ∧
        (execute i s).1.waiting_for_user = true) := by
  cases hcall : i.call <;>
    simp only [execute, hcall] <;>
    first
      | exact executePipeline_dichotomy _ i.extract s
      | (left; simp)

theorem pw_execute_ppc (penv : PlanEnv) (s : SessionState) :
    (execute { call := FnCall.execute_project_creation penv }
        s).1.pending_question = s.pending_question ∧
      (execute { call := FnCall.execute_project_creation penv }
          s).1.waiting_for_user = s.waiting_for_user := by
  simp only [execute]
  exact pw_executePipeline _ none _ s
    (fun s' => pw_executeProjectCreation s' penv)

theorem fcStep_inv (i : Invocation) (s : SessionState)
    (h : WaitingInvariant s) : WaitingInvariant (fcStep i s).1 := by
  have hw := execute_dichotomy i s
  have key : (execute i s).1.waiting_for_user =
      (execute i s).1.pending_question.isSome := by
    rcases hw with ⟨h1, h2, _, _⟩ | ⟨h1, h2⟩
    · rw [h1, h2]; exact h
    · rw [h1, h2]
  simp only [fcStep, WaitingInvariant]
  by_cases hc : (execute i s).2 = "waiting_for_user" ∨
      (execute i s).2 = "permission_requested"
  · rw [if_pos hc]
    rcases hw with ⟨_, _, h3, h4⟩ | ⟨h1, _⟩
    · rcases hc with hc | hc
      · exact absurd hc h3
      · exact absurd hc h4
    · exact h1.symm
  · rw [if_neg hc]
    split_ifs <;>
      simp [SessionState.update_state,
        (pw_execute_ppc i.autoExecEnv (execute i s).1).1,
        (pw_execute_ppc i.autoExecEnv (execute i s).1).2, key]

theorem autoTransitionGetD_inv (s : SessionState)
    (h : WaitingInvariant s) :
    WaitingInvariant ((autoTransition s).getD s) := by
  have hp := pw_autoTransitionGetD s
  unfold WaitingInvariant at h ⊢
  rw [hp.1, hp.2]; exact h

theorem finishStep_inv (s : SessionState) (acc : String)
    (h : WaitingInvariant s) : WaitingInvariant (finishStep s acc).1 := by
  simp only [finishStep]
  have h1 : WaitingInvariant
      (if pyStrip acc ≠ "" then s.add_message "assistant" acc else s) := by
    split_ifs
    · exact h
    · exact h
  set s1 := if pyStrip acc ≠ "" then s.add_message "assistant" acc else s
  cases hadv : shouldAdvanceWorkflow s1 with
  | none => exact h1
  | some should =>
    simp only []
    have h2 : WaitingInvariant
        (if should then (autoTransition s1).getD s1 else s1) := by
      split_ifs
      · exact autoTransitionGetD_inv s1 h1
      · exact h1
    set s2 := if should then (autoTransition s1).getD s1 else s1
    split_ifs
    · exact h2
    · exact h2

theorem runStream_inv (events : List GeminiEvent) :
    ∀ (s : SessionState) (acc : String), WaitingInvariant s →
      WaitingInvariant (runStream events s acc).state := by
  induction events with
  | nil => intro s acc h; exact h
  | cons e rest ih =>
    intro s acc h
    cases e with
    | text c =>
      simp only [runStream]
      exact ih s (acc ++ c) h
    | functionCall inv =>
      simp only [runStream]
      have hf := fcStep_inv inv s h
      split_ifs
      · exact hf
      · exact ih _ acc hf
    | finish =>
      simp only [runStream]
      have hf := finishStep_inv s acc h
      split_ifs
      · exact hf
      · exact hf

theorem runScripts_inv (scripts : List (List GeminiEvent)) :
    ∀ ex : StreamExit, WaitingInvariant ex.state →
      WaitingInvariant (runScripts scripts ex) := by
  induction scripts with
  | nil => intro ex h; cases ex <;> exact h
  | cons sc rest ih =>
    intro ex h
    cases ex with
    | done t => exact h
    | next t => exact ih (runStream sc t "") (runStream_inv sc t "" h)

theorem runEvents_inv (scripts : List (List GeminiEvent))
    (events : List GeminiEvent) (s : SessionState) (acc : String)
    (h : WaitingInvariant s) :
    WaitingInvariant (runEvents events scripts s acc) :=
  runScripts_inv scripts (runStream events s acc)
    (runStream_inv events s acc h)

theorem processWithGemini_inv (scripts : List (List GeminiEvent))
    (s : SessionState) (h : WaitingInvariant s) :
    WaitingInvariant (processWithGemini scripts s) := by
  cases scripts with
  | nil => exact h
  | cons sc rest => exact runEvents_inv rest sc s "" h

theorem pw_detectSystemCapabilities (s : SessionState)
    (probed : Option SystemCapability) :
    (detectSystemCapabilities s probed).1.pending_question =
        s.pending_question ∧
      (detectSystemCapabilities s probed).1.waiting_for_user =
        s.waiting_for_user := by
  cases probed <;> exact ⟨rfl, rfl⟩

theorem hur_shape (s : SessionState) (input : String)
    (ad : Option SystemCapability) :
    (handleUserResponse s input ad).1.waiting_for_user =
        s.waiting_for_user ∧
      (((handleUserResponse s input ad).2 = true ∧
          (handleUserResponse s input ad).1.pending_question = none) ∨
        ((handleUserResponse s input ad).2 = false ∧
          (handleUserResponse s input ad).1.pending_question =
            s.pending_question)) := by
  unfold handleUserResponse
  cases hp : s.pending_question with
  | none => exact ⟨rfl, Or.inl ⟨rfl, hp⟩⟩
  | some q =>
    cases q with
    | choice f o qq d =>
      simp only []
      split
      · exact ⟨rfl, Or.inl ⟨rfl, rfl⟩⟩
      · exact ⟨rfl, Or.inr ⟨rfl, hp.symm ▸ rfl⟩⟩
    | permission pt sc r rq qt =>
      simp only []
      split_ifs
      · exact ⟨(pw_detectSystemCapabilities _ ad).2, Or.inl ⟨rfl, rfl⟩⟩
      · exact ⟨rfl, Or.inl ⟨rfl, rfl⟩⟩

/-- C1: after every orchestrator turn — `process_conversation` on any
session satisfying the invariant, with any user input, capability-probe
outcome and reasoning streams — the waiting flag is raised exactly when
a pending question exists. -/
theorem processConversation_waiting_invariant (input : String)
    (autoDetect : Option SystemCapability)
    (scripts : List (List GeminiEvent)) (s : SessionState)
    (h : WaitingInvariant s) :
    WaitingInvariant (processConversation input autoDetect scripts s) := by
  simp only [processConversation]
  cases hq : (s.add_message "user" input).pending_question with
  | none => exact processWithGemini_inv scripts _ h
  | some q =>
    simp only []
    rcases hur_shape (s.add_message "user" input) input autoDetect with
      ⟨hw, hrest⟩
    have hs1w : (s.add_message "user" input).waiting_for_user = true := by
      have h2 : (s.add_message "user" input).waiting_for_user =
          (s.add_message "user" input).pending_question.isSome := h
      rw [h2, hq]; rfl
    split_ifs with hcond
    · apply processWithGemini_inv
      rcases hrest with ⟨_, hpn⟩ | ⟨hfalse, _⟩
      · unfold WaitingInvariant
        simp [hpn]
      · rw [hfalse] at hcond
        exact absurd hcond.1 (by simp)
    · apply processWithGemini_inv
      rcases hrest with ⟨htrue, _⟩ | ⟨_, hpn⟩
      · exact absurd ⟨htrue, hw.trans hs1w⟩ hcond
      · unfold WaitingInvariant
        rw [hw, hpn, hq, hs1w]
        rfl

/-- Concrete session for the C1 witness: a fresh INIT session. -/
def c1Session : SessionState := { session_id := "c1" }

/-- Witness for C1: the invariant holds on a fresh session and, by the
theorem, after a concrete turn through a two-chunk reasoning stream. -/
theorem c1_witness :
    WaitingInvariant c1Session ∧
      WaitingInvariant (processConversation "hello" none
        [[GeminiEvent.text "hi", GeminiEvent.finish]] c1Session) :=
  ⟨by unfold WaitingInvariant; decide,
    processConversation_waiting_invariant "hello" none
      [[GeminiEvent.text "hi", GeminiEvent.finish]] c1Session
      (by unfold WaitingInvariant; decide)⟩

/-- C3 (amended): when a pending choice question is answered with input
matching no option, the handler re-prompts keeping the question, the
target requirement fields and the waiting flag — but the turn does NOT
stop there: `process_conversation` still hands the re-prompted session
to the reasoning capability (agent.py lines 325-336 fall through to
`_process_with_gemini` even when the response was invalid). -/
theorem processConversation_invalid_choice (input : String)
    (autoDetect : Option SystemCapability)
    (scripts : List (List GeminiEvent)) (s : SessionState) (f qq : String)
    (o : List String) (d : Option String)
    (hq : (s.add_message "user" input).pending_question =
      some (PendingQuestion.choice f o qq d))
    (hfind : o.find? (fun opt =>
        pyLower opt = pyStrip (pyLower input) ||
          pyIn (pyStrip (pyLower input)) (pyLower opt)) = none) :
    processConversation input autoDetect scripts s =
        processWithGemini scripts
          ((s.add_message "user" input).add_message "assistant"
            (choiceInvalidMsg input o)) ∧
      ((s.add_message "user" input).add_message "assistant"
          (choiceInvalidMsg input o)).pending_question =
        some (PendingQuestion.choice f o qq d) ∧
      ((s.add_message "user" input).add_message "assistant"
          (choiceInvalidMsg input o)).waiting_for_user =
        s.waiting_for_user ∧
      ((s.add_message "user" input).add_message "assistant"
          (choiceInvalidMsg input o)).requirements = s.requirements := by
  refine ⟨?_, hq, rfl, rfl⟩
  simp only [processConversation, handleUserResponse, hq, hfind]
  simp

/-- Concrete session for the C3 counterexample: waiting on a database
choice between sqlite and postgresql. -/
def c3Session : SessionState :=
  { session_id := "c3",
    current_state := ConversationState.ASK_ADDITIONAL_DETAILS,
    pending_question := some (PendingQuestion.choice "database"
      ["sqlite", "postgresql"] "Which database should the project use?"
      none),
    waiting_for_user := true }

/-- The reasoning stream of the C3 counterexample turn: one function
call that moves the state machine. -/
def c3Script : List GeminiEvent :=
  [GeminiEvent.functionCall
     { call := FnCall.update_conversation_state ConversationState.EXECUTING }]

/-- Counterexample for C3: the answer `mongo` matches neither option,
yet the turn does not stop — the reasoning capability runs and flips
the state to EXECUTING (while the question, flag and re-prompt are as
the claim describes). -/
theorem c3_counterexample :
    (processConversation "mongo" none [c3Script] c3Session).current_state =
        ConversationState.EXECUTING ∧
      (processConversation "mongo" none [c3Script]
          c3Session).pending_question = c3Session.pending_question ∧
      (processConversation "mongo" none [c3Script]
          c3Session).waiting_for_user = true ∧
      (processConversation "mongo" none [c3Script]
          c3Session).conversation_history.length =
        c3Session.conversation_history.length + 2 := by
  decide

/-- Witness for the amended C3 theorem: the hypotheses are discharged
at the concrete no-match scenario and the conclusion instantiated
there. -/
theorem c3_witness :
    (c3Session.add_message "user" "unknowndb").pending_question =
        some (PendingQuestion.choice "database" ["sqlite", "postgresql"]
          "Which database should the project use?" none) ∧
      processConversation "unknowndb" none [] c3Session =
        processWithGemini []
          ((c3Session.add_message "user" "unknowndb").add_message "assistant"
            (choiceInvalidMsg "unknowndb" ["sqlite", "postgresql"])) :=
  ⟨by decide,
    (processConversation_invalid_choice "unknowndb" none [] c3Session
      "database" "Which database should the project use?"
      ["sqlite", "postgresql"] none (by decide) (by decide)).1⟩

/-- Concrete session for C4: past INIT, empty action-result log. -/
def c4Session : SessionState :=
  { session_id := "c4", current_state := ConversationState.ASK_PROJECT_TYPE }

/-- The reasoning stream of the C4 turn: six registered function calls,
then the finish chunk. -/
def c4Script : List GeminiEvent :=
  (List.replicate 6 (GeminiEvent.functionCall
    ({ call := FnCall.validate_requirements } : Invocation))) ++
    [GeminiEvent.finish]

/-- C4: the action-result history is NOT bounded by 10.  Each executed
call appends twice — once in `FunctionRegistry.execute`
(function_registry.py lines 117-126) and once in the agent loop
(agent.py lines 822-829) — while the trim (agent.py lines 831-833,
`Keep only last 10 function results`) pops a single entry per call, so
six calls in one turn leave eleven entries. -/
theorem processConversation_function_results_unbounded :
    (processConversation "hello" none [c4Script]
        c4Session).function_results.length = 11 := by
  decide
